import Mathlib

/-!
# IqWamp: the session object `IqWampCallee` (src/iqwampcallee.cpp)

A shallow embedding of the per-connection protocol handler of the IqWamp router.

* JSON values are the value model of `QJsonValue`; a JSON number (a C++ double) is
  represented by the rational it denotes.
* A session object is identified by a natural number (its address, `this`).
* Every handler is a function on an explicit `World`: the realm the sessions share,
  the member variables of every session, and the ordered record of what was handed to
  the transports (`sent`) and of the `hello` signals raised.
* A handler returns `none` exactly when it dereferences `m_realm` before `setRealm`
  was called, or asks a registry for an entry it does not hold.
-/

namespace IqWamp

/-! ## JSON value model (QJsonValue / QJsonArray / QJsonObject) -/

/-- The variants of a `QJsonValue`. `undefined` is what `QJsonArray::at` yields for an
index out of bounds. -/
inductive QJsonValue where
  | undefined : QJsonValue
  | null : QJsonValue
  | bool (b : Bool) : QJsonValue
  | double (d : ℚ) : QJsonValue
  | string (s : String) : QJsonValue
  | array (a : List QJsonValue) : QJsonValue
  | object (o : List (String × QJsonValue)) : QJsonValue

abbrev QJsonArray := List QJsonValue

abbrev QJsonObject := List (String × QJsonValue)

namespace QJsonValue

def isDouble : QJsonValue → Bool
  | double _ => true
  | _ => false

def isString : QJsonValue → Bool
  | string _ => true
  | _ => false

def isArray : QJsonValue → Bool
  | array _ => true
  | _ => false

def isObject : QJsonValue → Bool
  | object _ => true
  | _ => false

/-- The conversion `QJsonValue::toInt()`: the number itself when the value is a whole
number that fits a 32-bit `int`, and the default value 0 in every other case. -/
def toInt : QJsonValue → Int
  | double d => if d.den = 1 ∧ -2147483648 ≤ d.num ∧ d.num ≤ 2147483647 then d.num else 0
  | _ => 0

/-- The conversion `QJsonValue::toString()`: the empty string unless the value is a string. -/
def toString : QJsonValue → String
  | string s => s
  | _ => ""

/-- The conversion `QJsonValue::toArray()`: the empty array unless the value is an array. -/
def toArray : QJsonValue → QJsonArray
  | array a => a
  | _ => []

/-- The conversion `QJsonValue::toObject()`: the empty object unless the value is an object. -/
def toObject : QJsonValue → QJsonObject
  | object o => o
  | _ => []

/-- The constructor `QJsonValue(int)`: the 32-bit integer stored as a JSON number. -/
def ofInt (i : Int) : QJsonValue := double (i : ℚ)

end QJsonValue

/-- The accessor `QJsonArray::at(i)`: the element, or `undefined` when `i` is out of bounds. -/
def QJsonArray.atIndex (a : QJsonArray) (i : Nat) : QJsonValue := a.getD i QJsonValue.undefined

/-! ## Constants of the header `iqwamp.h` -/

/-- Modelled from the spec: the enumeration `IqWamp::MessageTypes` is declared in a header
that is not part of the source. Section 8 of the specification fixes REGISTER = 64,
REGISTERED = 65, CALL = 48, INVOCATION = 68 and RESULT = 50; the remaining codes follow
the same WAMP numbering. -/
abbrev MessageTypes := Int

namespace MessageTypes

abbrev Hello : MessageTypes := 1
abbrev Welcome : MessageTypes := 2
abbrev Abort : MessageTypes := 3
abbrev Error : MessageTypes := 8
abbrev Publish : MessageTypes := 16
abbrev Published : MessageTypes := 17
abbrev Subscribe : MessageTypes := 32
abbrev Subscribed : MessageTypes := 33
abbrev UnSubscribe : MessageTypes := 34
abbrev UnSubscribed : MessageTypes := 35
abbrev Event : MessageTypes := 36
abbrev Call : MessageTypes := 48
abbrev Result : MessageTypes := 50
abbrev Register : MessageTypes := 64
abbrev Registered : MessageTypes := 65
abbrev UnRegister : MessageTypes := 66
abbrev UnRegistered : MessageTypes := 67
abbrev Invocation : MessageTypes := 68

end MessageTypes

/-- Modelled from the spec: the error URIs `IqWamp::Errors::*` are string constants of the
same missing header; section 6 of the specification lists them by these identifiers. -/
inductive Errors where
  | ProcedureAlreadyExists
  | NoSuchRegistration
  | NotOwner
  | NoSuchSubscription
  | NotSubscribed
  | NoSuchProcedure
  | NotFoundTopic
  | Timeout
deriving DecidableEq, Repr

/-- Modelled from the spec: the string an error URI constant holds (its identifier). -/
def Errors.uri : Errors → String
  | ProcedureAlreadyExists => "ProcedureAlreadyExists"
  | NoSuchRegistration => "NoSuchRegistration"
  | NotOwner => "NotOwner"
  | NoSuchSubscription => "NoSuchSubscription"
  | NotSubscribed => "NotSubscribed"
  | NoSuchProcedure => "NoSuchProcedure"
  | NotFoundTopic => "NotFoundTopic"
  | Timeout => "Timeout"

/-! ## Realm: registries, broker, dialer (classes outside the source) -/

/-- Modelled from the spec: a Registration (class `IqWampRegistration`, not in the source):
registration id, procedure uri, owning session. -/
structure IqWampRegistration where
  id : Int
  procedure : String
  callee : Nat
deriving DecidableEq, Repr

/-- Modelled from the spec: the RegistrationRegistry (class `IqWampRegistrations`, not in
the source) of section 4.2. The live Registration objects are kept once, in creation
order; the uri index and the id index of the specification are the two lookups below
over that one collection. `lastId` is the next id `create` hands out. -/
structure IqWampRegistrations where
  lastId : Int
  items : List IqWampRegistration
deriving DecidableEq, Repr

namespace IqWampRegistrations

/-- Modelled from the spec: `registration(uri)`; `none` is the failure `NotFound`. -/
def registration (r : IqWampRegistrations) (procedure : String) : Option IqWampRegistration :=
  r.items.find? (fun x => decide (x.procedure = procedure))

/-- Modelled from the spec: `registration(id)`; `none` is the failure `NotFound`. -/
def registrationById (r : IqWampRegistrations) (id : Int) : Option IqWampRegistration :=
  r.items.find? (fun x => decide (x.id = id))

/-- Modelled from the spec: `hasRegistration(uri)`. -/
def hasRegistration (r : IqWampRegistrations) (procedure : String) : Bool :=
  (r.registration procedure).isSome

/-- Modelled from the spec: `hasRegistration(id)`. -/
def hasRegistrationId (r : IqWampRegistrations) (id : Int) : Bool :=
  (r.registrationById id).isSome

/-- Modelled from the spec: `create(uri, owningSession)` allocates a fresh, never-reused
id and inserts the new Registration under both its uri and its id. -/
def create (r : IqWampRegistrations) (procedure : String) (callee : Nat) :
    IqWampRegistration × IqWampRegistrations :=
  let registration : IqWampRegistration := ⟨r.lastId, procedure, callee⟩
  (registration, ⟨r.lastId + 1, r.items ++ [registration]⟩)

/-- Modelled from the spec: `remove(id)` erases the Registration with that id from both
indices. -/
def remove (r : IqWampRegistrations) (id : Int) : IqWampRegistrations :=
  ⟨r.lastId, r.items.filter (fun x => !decide (x.id = id))⟩

end IqWampRegistrations

/-- Modelled from the spec: a Subscription (class `IqWampSubscription`, not in the source):
subscription id, topic uri, the subscriber sessions. -/
structure IqWampSubscription where
  id : Int
  topic : String
  callees : List Nat
deriving DecidableEq, Repr

namespace IqWampSubscription

/-- Modelled from the spec: `hasCallee(session)`. -/
def hasCallee (s : IqWampSubscription) (callee : Nat) : Bool := decide (callee ∈ s.callees)

/-- Modelled from the spec: `addCallee(session)`; adding an existing member is a no-op. -/
def addCallee (s : IqWampSubscription) (callee : Nat) : IqWampSubscription :=
  if callee ∈ s.callees then s else ⟨s.id, s.topic, s.callees ++ [callee]⟩

/-- Modelled from the spec: `removeCallee(session)`; removing an absent member is a no-op. -/
def removeCallee (s : IqWampSubscription) (callee : Nat) : IqWampSubscription :=
  ⟨s.id, s.topic, s.callees.filter (fun c => !decide (c = callee))⟩

end IqWampSubscription

/-- Modelled from the spec: the SubscriptionRegistry (class `IqWampSubscriptions`, not in
the source) of section 4.3, kept like the RegistrationRegistry. -/
structure IqWampSubscriptions where
  lastId : Int
  items : List IqWampSubscription
deriving DecidableEq, Repr

/-- The first element of a list that satisfies `p`, replaced by its image under `f`: a
call of a mutating method on the shared object a lookup returned. -/
def modifyFirst {α : Type} (p : α → Bool) (f : α → α) : List α → List α
  | [] => []
  | x :: xs => if p x then f x :: xs else x :: modifyFirst p f xs

namespace IqWampSubscriptions

/-- Modelled from the spec: `subscription(uri)`; `none` is the failure `NotFound`. -/
def subscription (r : IqWampSubscriptions) (topic : String) : Option IqWampSubscription :=
  r.items.find? (fun x => decide (x.topic = topic))

/-- Modelled from the spec: `subscription(id)`; `none` is the failure `NotFound`. -/
def subscriptionById (r : IqWampSubscriptions) (id : Int) : Option IqWampSubscription :=
  r.items.find? (fun x => decide (x.id = id))

/-- Modelled from the spec: `hasSubscription(uri)`. -/
def hasSubscription (r : IqWampSubscriptions) (topic : String) : Bool :=
  (r.subscription topic).isSome

/-- Modelled from the spec: `hasSubscription(id)`. -/
def hasSubscriptionId (r : IqWampSubscriptions) (id : Int) : Bool :=
  (r.subscriptionById id).isSome

/-- Modelled from the spec: `create(uri, creatorSession)`: fresh id, subscriber set
initialised to the creator alone. -/
def create (r : IqWampSubscriptions) (topic : String) (callee : Nat) :
    IqWampSubscription × IqWampSubscriptions :=
  let subscription : IqWampSubscription := ⟨r.lastId, topic, [callee]⟩
  (subscription, ⟨r.lastId + 1, r.items ++ [subscription]⟩)

/-- The effect of `subscription(uri)->addCallee(callee)` on the registry that shares the
Subscription object. -/
def addCallee (r : IqWampSubscriptions) (topic : String) (callee : Nat) : IqWampSubscriptions :=
  ⟨r.lastId, modifyFirst (fun x => decide (x.topic = topic)) (fun x => x.addCallee callee) r.items⟩

/-- The effect of `subscription(id)->removeCallee(callee)` on the registry that shares the
Subscription object. -/
def removeCallee (r : IqWampSubscriptions) (id : Int) (callee : Nat) : IqWampSubscriptions :=
  ⟨r.lastId, modifyFirst (fun x => decide (x.id = id)) (fun x => x.removeCallee callee) r.items⟩

end IqWampSubscriptions

/-- One invocation of the broker: the Subscription and the arguments it was handed. -/
structure PublishCall where
  subscription : IqWampSubscription
  arguments : QJsonArray
  argumentsKw : QJsonObject

/-- Modelled from the spec: the Broker (class `IqWampBroker`, not in the source) of section
4.5. `lastPublicationId` is the next publication id; `calls` records every invocation
of `publish`, oldest first. -/
structure IqWampBroker where
  lastPublicationId : Int
  calls : List PublishCall

/-- One invocation of the dialer: the Registration and the arguments it was handed. -/
structure DialerCall where
  registration : IqWampRegistration
  arguments : QJsonArray
  argumentsKw : QJsonObject

/-- Modelled from the spec: the Dialer (class `IqWampDialer`, not in the source) of section
4.4. `lastInvocationId` is the next invocation id; `calls` records every invocation of
`call`, oldest first. -/
structure IqWampDialer where
  lastInvocationId : Int
  calls : List DialerCall

/-- The realm (class `IqWampRealm`, not in the source): the four components its accessors
`registrations()`, `subscriptions()`, `broker()` and `dialer()` return. -/
structure IqWampRealm where
  registrations : IqWampRegistrations
  subscriptions : IqWampSubscriptions
  broker : IqWampBroker
  dialer : IqWampDialer

/-! ## The session object -/

/-- The record `IqWampCallFuture`: the request id of the pending CALL. -/
structure IqWampCallFuture where
  callRequest : QJsonValue

/-- The member variables of an `IqWampCallee`. `m_realm` tells whether `setRealm` has
pointed the session at the realm. -/
structure IqWampCallee where
  m_sessionId : String
  m_realm : Bool
  m_callFutures : List (Int × IqWampCallFuture)

/-- The router as the handlers see it: the realm, the session objects by identity, the
frames handed to the transports (receiving session, frame) oldest first, and the
`hello` signals raised (session, argument) oldest first. -/
structure World where
  realm : IqWampRealm
  callees : Nat → IqWampCallee
  sent : List (Nat × QJsonValue)
  helloSignals : List (Nat × String)

namespace IqWampCallee

/-- Source function `IqWampCallee::send`: the array is serialised and handed to the
socket of the session. -/
def send (w : World) (self : Nat) (jsonArray : QJsonArray) : World :=
  { w with sent := w.sent ++ [(self, QJsonValue.array jsonArray)] }

/-- The array `message` that `publishEvent` builds before it sends it. -/
def eventMessage (subscriptionId publicationId : Int)
    (arguments : QJsonArray) (argumentsKw : QJsonObject) : QJsonArray :=
  let message : QJsonArray :=
    [QJsonValue.ofInt MessageTypes.Event, QJsonValue.ofInt subscriptionId,
     QJsonValue.ofInt publicationId, QJsonValue.object []]
  let message := if !arguments.isEmpty || !argumentsKw.isEmpty
    then message ++ [QJsonValue.array arguments] else message
  let message := if !argumentsKw.isEmpty
    then message ++ [QJsonValue.object argumentsKw] else message
  message

/-- Source function `IqWampCallee::publishEvent`. -/
def publishEvent (w : World) (self : Nat) (subscriptionId publicationId : Int)
    (arguments : QJsonArray) (argumentsKw : QJsonObject) : World :=
  send w self (eventMessage subscriptionId publicationId arguments argumentsKw)

/-- Source function `IqWampCallee::sessionId`. -/
def sessionId (w : World) (self : Nat) : String := (w.callees self).m_sessionId

/-- Source function `IqWampCallee::createSessionId`; `uuid` is the string that
`QUuid::createUuid()` produced. -/
def createSessionId (w : World) (self : Nat) (uuid : String) : World :=
  { w with callees := Function.update w.callees self { w.callees self with m_sessionId := uuid } }

/-- Source function `IqWampCallee::sendWelcome`. -/
def sendWelcome (w : World) (self : Nat) (uuid : String) : World :=
  let w := createSessionId w self uuid
  let details : QJsonObject := [("roles", QJsonValue.object [])]
  send w self [QJsonValue.ofInt MessageTypes.Welcome,
    QJsonValue.string (w.callees self).m_sessionId, QJsonValue.object details]

/-- Source function `IqWampCallee::sendAbort`. -/
def sendAbort (w : World) (self : Nat) (reason : String) (details : QJsonObject) : World :=
  send w self [QJsonValue.ofInt MessageTypes.Abort, QJsonValue.object details,
    QJsonValue.string reason]

/-- Source function `IqWampCallee::setRealm`. -/
def setRealm (w : World) (self : Nat) : World :=
  { w with callees := Function.update w.callees self { w.callees self with m_realm := true } }

/-- Source function `IqWampCallee::sendSubscribed`. -/
def sendSubscribed (w : World) (self : Nat) (request : QJsonValue) (subscriptionId : Int) : World :=
  send w self [QJsonValue.ofInt MessageTypes.Subscribed, request, QJsonValue.ofInt subscriptionId]

/-- Source function `IqWampCallee::sendRegistered`. -/
def sendRegistered (w : World) (self : Nat) (request : QJsonValue) (registrationId : Int) : World :=
  send w self [QJsonValue.ofInt MessageTypes.Registered, request, QJsonValue.ofInt registrationId]

/-- Source function `IqWampCallee::sendUnSubscribed`. -/
def sendUnSubscribed (w : World) (self : Nat) (request : QJsonValue) : World :=
  send w self [QJsonValue.ofInt MessageTypes.UnSubscribed, request]

/-- Source function `IqWampCallee::sendUnRegistered`. -/
def sendUnRegistered (w : World) (self : Nat) (request : QJsonValue) : World :=
  send w self [QJsonValue.ofInt MessageTypes.UnRegistered, request]

/-- Source function `IqWampCallee::sendPublished`. -/
def sendPublished (w : World) (self : Nat) (request : QJsonValue) (publicationId : Int) : World :=
  send w self [QJsonValue.ofInt MessageTypes.Published, request, QJsonValue.ofInt publicationId]

/-- Source function `IqWampCallee::sendError`. The handlers pass three arguments, so
`details` is the default argument of the declaration, the empty object. -/
def sendError (w : World) (self : Nat) (requestType : MessageTypes) (request : QJsonValue)
    (error : Errors) (details : QJsonObject) : World :=
  send w self [QJsonValue.ofInt MessageTypes.Error, QJsonValue.ofInt requestType, request,
    QJsonValue.object details, QJsonValue.string error.uri]

/-- Source function `IqWampCallee::call`: the body in the source is empty. -/
def call (w : World) (_self : Nat) (_registrationId _invocationId : Int)
    (_arguments : QJsonArray) (_argumentsKw : QJsonObject) : World := w

end IqWampCallee

/-- Modelled from the spec: `publish(subscription, args, argsKw)` of section 4.5 allocates a
fresh publication id, then delivers an EVENT through `publishEvent` to every session in
the subscriber set of `subscription`, and returns the publication id. -/
def IqWampBroker.publish (w : World) (subscription : IqWampSubscription)
    (arguments : QJsonArray) (argumentsKw : QJsonObject) : Int × World :=
  let publicationId := w.realm.broker.lastPublicationId
  let broker : IqWampBroker :=
    ⟨publicationId + 1, w.realm.broker.calls ++ [⟨subscription, arguments, argumentsKw⟩]⟩
  let w : World := { w with realm := { w.realm with broker := broker } }
  (publicationId, subscription.callees.foldl
    (fun w callee => IqWampCallee.publishEvent w callee subscription.id publicationId
      arguments argumentsKw) w)

/-- Modelled from the spec: `call(registration, args, argsKw)` of section 4.4 allocates a
fresh invocation id, delivers the invocation to the owning session through its `call`
operation, and returns the invocation id. -/
def IqWampDialer.call (w : World) (registration : IqWampRegistration)
    (arguments : QJsonArray) (argumentsKw : QJsonObject) : Int × World :=
  let invocationId := w.realm.dialer.lastInvocationId
  let dialer : IqWampDialer :=
    ⟨invocationId + 1, w.realm.dialer.calls ++ [⟨registration, arguments, argumentsKw⟩]⟩
  let w : World := { w with realm := { w.realm with dialer := dialer } }
  (invocationId, IqWampCallee.call w registration.callee registration.id invocationId
    arguments argumentsKw)

namespace IqWampCallee

/-- Source function `IqWampCallee::processRegister`. -/
def processRegister (w : World) (self : Nat) (jsonMessage : QJsonArray) : Option World :=
  let messageType : MessageTypes := (QJsonArray.atIndex jsonMessage 0).toInt
  let request := QJsonArray.atIndex jsonMessage 1
  if !(QJsonArray.atIndex jsonMessage 3).isString then some w
  else
    let procedure := (QJsonArray.atIndex jsonMessage 3).toString
    if !(w.callees self).m_realm then none
    else
      let registrations := w.realm.registrations
      if registrations.hasRegistration procedure then
        match registrations.registration procedure with
        | none => none
        | some registration =>
          if registration.callee ≠ self then
            some (sendError w self messageType request Errors.ProcedureAlreadyExists [])
          else
            some (sendRegistered w self request registration.id)
      else
        let created := registrations.create procedure self
        let w : World := { w with realm := { w.realm with registrations := created.2 } }
        some (sendRegistered w self request created.1.id)

/-- Source function `IqWampCallee::processSubscribe`. -/
def processSubscribe (w : World) (self : Nat) (jsonMessage : QJsonArray) : Option World :=
  let request := QJsonArray.atIndex jsonMessage 1
  if !(QJsonArray.atIndex jsonMessage 3).isString then some w
  else
    let topic := (QJsonArray.atIndex jsonMessage 3).toString
    if !(w.callees self).m_realm then none
    else
      let subscriptions := w.realm.subscriptions
      if subscriptions.hasSubscription topic then
        match subscriptions.subscription topic with
        | none => none
        | some subscription =>
          let w : World :=
            if !subscription.hasCallee self then
              { w with realm := { w.realm with subscriptions := subscriptions.addCallee topic self } }
            else w
          some (sendSubscribed w self request subscription.id)
      else
        let created := subscriptions.create topic self
        let w : World := { w with realm := { w.realm with subscriptions := created.2 } }
        some (sendSubscribed w self request created.1.id)

/-- Source function `IqWampCallee::processUnRegister`. -/
def processUnRegister (w : World) (self : Nat) (jsonMessage : QJsonArray) : Option World :=
  let messageType : MessageTypes := (QJsonArray.atIndex jsonMessage 0).toInt
  let request := QJsonArray.atIndex jsonMessage 1
  if !(QJsonArray.atIndex jsonMessage 2).isDouble then some w
  else
    let registrationId := (QJsonArray.atIndex jsonMessage 2).toInt
    if !(w.callees self).m_realm then none
    else
      let registrations := w.realm.registrations
      if !registrations.hasRegistrationId registrationId then
        some (sendError w self messageType request Errors.NoSuchRegistration [])
      else
        match registrations.registrationById registrationId with
        | none => none
        | some registration =>
          if registration.callee ≠ self then
            some (sendError w self messageType request Errors.NotOwner [])
          else
            let w : World :=
              { w with realm := { w.realm with registrations := registrations.remove registrationId } }
            some (sendUnRegistered w self request)

/-- Source function `IqWampCallee::processUnSubscribe`. -/
def processUnSubscribe (w : World) (self : Nat) (jsonMessage : QJsonArray) : Option World :=
  let messageType : MessageTypes := (QJsonArray.atIndex jsonMessage 0).toInt
  let request := QJsonArray.atIndex jsonMessage 1
  if !(QJsonArray.atIndex jsonMessage 2).isDouble then some w
  else
    let subscriptionId := (QJsonArray.atIndex jsonMessage 2).toInt
    if !(w.callees self).m_realm then none
    else
      let subscriptions := w.realm.subscriptions
      if !subscriptions.hasSubscriptionId subscriptionId then
        some (sendError w self messageType request Errors.NoSuchSubscription [])
      else
        match subscriptions.subscriptionById subscriptionId with
        | none => none
        | some subscription =>
          if !subscription.hasCallee self then
            some (sendError w self messageType request Errors.NotSubscribed [])
          else
            let w : World :=
              { w with realm :=
                { w.realm with subscriptions := subscriptions.removeCallee subscriptionId self } }
            some (sendUnSubscribed w self request)

/-- The block shared by `processCall` and `processPublish` that reads the optional
`arguments` (element 4) and `argumentsKw` (element 5); `none` is the early return on a
field of the wrong kind. `argumentsKw` is read from element 4, as in the source. -/
def readArguments (jsonMessage : QJsonArray) : Option (QJsonArray × QJsonObject) :=
  if jsonMessage.length > 4 then
    if !(QJsonArray.atIndex jsonMessage 4).isArray then none
    else
      let arguments := (QJsonArray.atIndex jsonMessage 4).toArray
      if jsonMessage.length > 5 then
        if !(QJsonArray.atIndex jsonMessage 5).isObject then none
        else some (arguments, (QJsonArray.atIndex jsonMessage 4).toObject)
      else some (arguments, [])
  else some ([], [])

/-- Source function `IqWampCallee::processCall`. The idle timer of the call future is started but its
timeout is connected to nothing, so it has no effect on the state. -/
def processCall (w : World) (self : Nat) (jsonMessage : QJsonArray) : Option World :=
  let request := QJsonArray.atIndex jsonMessage 1
  if !(QJsonArray.atIndex jsonMessage 3).isString then some w
  else
    match readArguments jsonMessage with
    | none => some w
    | some (arguments, argumentsKw) =>
      let procedure := (QJsonArray.atIndex jsonMessage 3).toString
      if !(w.callees self).m_realm then none
      else
        let registrations := w.realm.registrations
        if !registrations.hasRegistration procedure then
          some (sendError w self MessageTypes.Call request Errors.NoSuchProcedure [])
        else
          match registrations.registration procedure with
          | none => none
          | some registration =>
            let called := IqWampDialer.call w registration arguments argumentsKw
            let invocationId := called.1
            let w := called.2
            let callFuture : IqWampCallFuture := ⟨request⟩
            let me := w.callees self
            let futures :=
              (invocationId, callFuture) :: me.m_callFutures.filter (fun f => !decide (f.1 = invocationId))
            some { w with callees := Function.update w.callees self { me with m_callFutures := futures } }

/-- Source function `IqWampCallee::processPublish`. -/
def processPublish (w : World) (self : Nat) (jsonMessage : QJsonArray) : Option World :=
  let request := QJsonArray.atIndex jsonMessage 1
  if !(QJsonArray.atIndex jsonMessage 3).isString then some w
  else
    match readArguments jsonMessage with
    | none => some w
    | some (arguments, argumentsKw) =>
      let topic := (QJsonArray.atIndex jsonMessage 3).toString
      if !(w.callees self).m_realm then none
      else
        let subscriptions := w.realm.subscriptions
        if !subscriptions.hasSubscription topic then
          some (sendError w self MessageTypes.Publish request Errors.NotFoundTopic [])
        else
          match subscriptions.subscription topic with
          | none => none
          | some subscription =>
            let published := IqWampBroker.publish w subscription arguments argumentsKw
            some (sendPublished published.2 self request published.1)

/-- Source function `IqWampCallee::processTextMessage`. `fromJson` is `QJsonDocument::fromJson`: `none`
is a parse error, `some v` the parsed document. -/
def processTextMessage (fromJson : String → Option QJsonValue) (w : World) (self : Nat)
    (message : String) : Option World :=
  match fromJson message with
  | none => some w
  | some messageDoc =>
    if !messageDoc.isArray then some w
    else
      let messageArray := messageDoc.toArray
      if messageArray.length < 2 then some w
      else
        let messageFirstParam := QJsonArray.atIndex messageArray 0
        if !messageFirstParam.isDouble then some w
        else
          let messageType : MessageTypes := messageFirstParam.toInt
          if messageType = MessageTypes.Hello then
            let messageSecondParam := QJsonArray.atIndex messageArray 1
            if !messageSecondParam.isString then some w
            else some { w with helloSignals := w.helloSignals ++ [(self, messageSecondParam.toString)] }
          else if messageType = MessageTypes.Welcome ∨ messageType = MessageTypes.Event then some w
          else if messageType = MessageTypes.Subscribe then processSubscribe w self messageArray
          else if messageType = MessageTypes.UnSubscribe then processUnSubscribe w self messageArray
          else if messageType = MessageTypes.Publish then processPublish w self messageArray
          else if messageType = MessageTypes.Register then processRegister w self messageArray
          else if messageType = MessageTypes.UnRegister then processUnRegister w self messageArray
          else some w

/-- The type codes whose `case` label in `processTextMessage` calls a handler or raises a
signal: HELLO, SUBSCRIBE, UNSUBSCRIBE, PUBLISH, REGISTER, UNREGISTER. -/
def supportedCodes : List MessageTypes :=
  [MessageTypes.Hello, MessageTypes.Subscribe, MessageTypes.UnSubscribe, MessageTypes.Publish,
   MessageTypes.Register, MessageTypes.UnRegister]

/-- Frames handled to completion one at a time, in arrival order; each input is the
receiving session and the text it received. -/
def processTextMessages (fromJson : String → Option QJsonValue) :
    World → List (Nat × String) → Option World
  | w, [] => some w
  | w, (self, message) :: rest =>
    match processTextMessage fromJson w self message with
    | none => none
    | some w' => processTextMessages fromJson w' rest

end IqWampCallee

/-- The consistency of a RegistrationRegistry: every id in use is below the next id to be
allocated, no two Registrations share an id, no two share a procedure uri. -/
def IqWampRegistrations.Inv (r : IqWampRegistrations) : Prop :=
  (∀ x ∈ r.items, x.id < r.lastId) ∧ (r.items.map (fun x => x.id)).Nodup ∧
    (r.items.map (fun x => x.procedure)).Nodup

/-- A router that has just started: empty registries, no frame sent yet, and every session
object already pointed at the realm. -/
def World.initial : World :=
  ⟨⟨⟨1, []⟩, ⟨1, []⟩, ⟨1, []⟩, ⟨1, []⟩⟩, fun _ => ⟨"", true, []⟩, [], []⟩

/-- The router after session 1 has registered `com.example.add` (registration id 1). -/
def World.withRegistration : World :=
  ⟨⟨⟨2, [⟨1, "com.example.add", 1⟩]⟩, ⟨1, []⟩, ⟨1, []⟩, ⟨1, []⟩⟩, fun _ => ⟨"", true, []⟩, [], []⟩

/-- The router after sessions 1 and 2 have subscribed to `com.example.topic` (subscription
id 1). -/
def World.withSubscription : World :=
  ⟨⟨⟨1, []⟩, ⟨2, [⟨1, "com.example.topic", [1, 2]⟩]⟩, ⟨1, []⟩, ⟨1, []⟩⟩,
    fun _ => ⟨"", true, []⟩, [], []⟩

/-- The router before any session object was pointed at a realm: as `World.initial`, with
`m_realm` unset in every session. -/
def World.noRealm : World :=
  ⟨⟨⟨1, []⟩, ⟨1, []⟩, ⟨1, []⟩, ⟨1, []⟩⟩, fun _ => ⟨"", false, []⟩, [], []⟩

/-- The calls made on session objects: a text frame arriving from the transport, the
operations the rest of the router invokes (`sendWelcome`, `sendAbort`, `setRealm`,
`publishEvent`, `call`), and the CALL handler invoked on a parsed frame. -/
inductive Operation where
  | textMessageReceived (self : Nat) (message : String)
  | sendWelcome (self : Nat) (uuid : String)
  | sendAbort (self : Nat) (reason : String) (details : QJsonObject)
  | setRealm (self : Nat)
  | publishEvent (self : Nat) (subscriptionId publicationId : Int)
      (arguments : QJsonArray) (argumentsKw : QJsonObject)
  | call (self : Nat) (registrationId invocationId : Int)
      (arguments : QJsonArray) (argumentsKw : QJsonObject)
  | processCall (self : Nat) (jsonMessage : QJsonArray)

/-- The session an operation is invoked on. -/
def Operation.target : Operation → Nat
  | textMessageReceived self _ => self
  | sendWelcome self _ => self
  | sendAbort self _ _ => self
  | setRealm self => self
  | publishEvent self _ _ _ _ => self
  | call self _ _ _ _ => self
  | processCall self _ => self

/-- Whether the operation is `sendWelcome`. -/
def Operation.isSendWelcome : Operation → Bool
  | sendWelcome _ _ => true
  | _ => false

/-- One operation carried out on the router. -/
def Operation.run (fromJson : String → Option QJsonValue) (w : World) : Operation → Option World
  | textMessageReceived self message => IqWampCallee.processTextMessage fromJson w self message
  | sendWelcome self uuid => some (IqWampCallee.sendWelcome w self uuid)
  | sendAbort self reason details => some (IqWampCallee.sendAbort w self reason details)
  | setRealm self => some (IqWampCallee.setRealm w self)
  | publishEvent self subscriptionId publicationId arguments argumentsKw =>
    some (IqWampCallee.publishEvent w self subscriptionId publicationId arguments argumentsKw)
  | call self registrationId invocationId arguments argumentsKw =>
    some (IqWampCallee.call w self registrationId invocationId arguments argumentsKw)
  | processCall self jsonMessage => IqWampCallee.processCall w self jsonMessage

/-- A sequence of operations carried out one after the other. -/
def Operation.runAll (fromJson : String → Option QJsonValue) :
    World → List Operation → Option World
  | w, [] => some w
  | w, op :: rest =>
    match op.run fromJson w with
    | none => none
    | some w' => Operation.runAll fromJson w' rest

/-- Every frame of `frames` that is an ERROR frame (its element 0 is the ERROR code) is
addressed to `self` and is `[ERROR, requestType, request, {}, uri]` for one of the error
URIs. -/
def ErrorsCorrelated (self : Nat) (requestType : MessageTypes) (request : QJsonValue)
    (frames : List (Nat × QJsonValue)) : Prop :=
  ∀ f ∈ frames, QJsonArray.atIndex f.2.toArray 0 = QJsonValue.ofInt MessageTypes.Error →
    ∃ e : Errors, f = (self, QJsonValue.array
      [QJsonValue.ofInt MessageTypes.Error, QJsonValue.ofInt requestType, request,
        QJsonValue.object [], QJsonValue.string e.uri])

theorem QJsonValue.toInt_double_intCast (i : Int) :
    (QJsonValue.double (i : ℚ)).toInt
      = if -2147483648 ≤ i ∧ i ≤ 2147483647 then i else 0 := by
  simp [QJsonValue.toInt]

theorem QJsonValue.toInt_ofInt (i : Int) (hlo : -2147483648 ≤ i) (hhi : i ≤ 2147483647) :
    (QJsonValue.ofInt i).toInt = i := by
  simp [QJsonValue.ofInt, QJsonValue.toInt, hlo, hhi]

theorem QJsonValue.toInt_double_not_whole (d : ℚ) (h : d.den ≠ 1) :
    (QJsonValue.double d).toInt = 0 := by
  simp [QJsonValue.toInt, h]

namespace IqWampCallee

/-- A frame whose type code is none of the dispatched ones reaches a `case` with an empty
body or the `default` label. -/
theorem processTextMessage_not_dispatched (fromJson : String → Option QJsonValue) (w : World)
    (self : Nat) (message : String) (v : QJsonValue) (hv : fromJson message = some v)
    (ht : (QJsonArray.atIndex v.toArray 0).toInt ∉ supportedCodes) :
    processTextMessage fromJson w self message = some w := by
  simp only [supportedCodes, List.mem_cons, List.mem_singleton, List.not_mem_nil, or_false,
    not_or] at ht
  obtain ⟨h1, h2, h3, h4, h5, h6⟩ := ht
  simp only [processTextMessage, hv]
  split_ifs <;> rfl

end IqWampCallee

namespace IqWampCallee

theorem processTextMessage_register (fromJson : String → Option QJsonValue) (w : World)
    (self : Nat) (message : String) (request : QJsonValue) (rest : QJsonArray)
    (hv : fromJson message
      = some (QJsonValue.array (QJsonValue.ofInt MessageTypes.Register :: request :: rest))) :
    processTextMessage fromJson w self message
      = processRegister w self (QJsonValue.ofInt MessageTypes.Register :: request :: rest) := by
  simp [processTextMessage, hv, QJsonValue.isArray, QJsonValue.toArray, QJsonArray.atIndex,
    QJsonValue.ofInt, QJsonValue.toInt, QJsonValue.isDouble]

theorem processTextMessage_unRegister (fromJson : String → Option QJsonValue) (w : World)
    (self : Nat) (message : String) (request : QJsonValue) (rest : QJsonArray)
    (hv : fromJson message
      = some (QJsonValue.array (QJsonValue.ofInt MessageTypes.UnRegister :: request :: rest))) :
    processTextMessage fromJson w self message
      = processUnRegister w self (QJsonValue.ofInt MessageTypes.UnRegister :: request :: rest) := by
  simp [processTextMessage, hv, QJsonValue.isArray, QJsonValue.toArray, QJsonArray.atIndex,
    QJsonValue.ofInt, QJsonValue.toInt, QJsonValue.isDouble]

theorem processTextMessage_subscribe (fromJson : String → Option QJsonValue) (w : World)
    (self : Nat) (message : String) (request : QJsonValue) (rest : QJsonArray)
    (hv : fromJson message
      = some (QJsonValue.array (QJsonValue.ofInt MessageTypes.Subscribe :: request :: rest))) :
    processTextMessage fromJson w self message
      = processSubscribe w self (QJsonValue.ofInt MessageTypes.Subscribe :: request :: rest) := by
  simp [processTextMessage, hv, QJsonValue.isArray, QJsonValue.toArray, QJsonArray.atIndex,
    QJsonValue.ofInt, QJsonValue.toInt, QJsonValue.isDouble]

theorem processTextMessage_publish (fromJson : String → Option QJsonValue) (w : World)
    (self : Nat) (message : String) (request : QJsonValue) (rest : QJsonArray)
    (hv : fromJson message
      = some (QJsonValue.array (QJsonValue.ofInt MessageTypes.Publish :: request :: rest))) :
    processTextMessage fromJson w self message
      = processPublish w self (QJsonValue.ofInt MessageTypes.Publish :: request :: rest) := by
  simp [processTextMessage, hv, QJsonValue.isArray, QJsonValue.toArray, QJsonArray.atIndex,
    QJsonValue.ofInt, QJsonValue.toInt, QJsonValue.isDouble]

end IqWampCallee

namespace IqWampRegistrations

theorem hasRegistration_eq_false_iff (r : IqWampRegistrations) (procedure : String) :
    r.hasRegistration procedure = false ↔ ∀ x ∈ r.items, x.procedure ≠ procedure := by
  simp [hasRegistration, registration, List.find?_eq_none]

theorem registration_create (r : IqWampRegistrations) (procedure : String) (callee : Nat)
    (h : r.hasRegistration procedure = false) :
    (r.create procedure callee).2.registration procedure = some ⟨r.lastId, procedure, callee⟩ := by
  have h1 : r.items.find? (fun x => decide (x.procedure = procedure)) = none := by
    simpa [hasRegistration, registration] using h
  simp [create, registration, List.find?_append, h1]

end IqWampRegistrations

theorem World.initial_registrations_inv : World.initial.realm.registrations.Inv := by
  simp [World.initial, IqWampRegistrations.Inv]

namespace IqWampCallee

/-- A REGISTER frame for a procedure nobody holds: the Registration is created. -/
theorem processRegister_free (w : World) (self : Nat) (code request options : QJsonValue)
    (procedure : String) (rest : QJsonArray)
    (hrealm : (w.callees self).m_realm = true)
    (hfree : w.realm.registrations.hasRegistration procedure = false) :
    processRegister w self (code :: request :: options :: QJsonValue.string procedure :: rest)
      = some (sendRegistered
          { w with realm := { w.realm with
              registrations := (w.realm.registrations.create procedure self).2 } }
          self request w.realm.registrations.lastId) := by
  simp only [processRegister, QJsonArray.atIndex, List.getD_cons_succ,
    List.getD_cons_zero, QJsonValue.isString, QJsonValue.toString, hrealm, hfree]
  rfl

/-- A REGISTER frame for a procedure the requesting session holds: the existing id is
reported and nothing else happens. -/
theorem processRegister_own (w : World) (self : Nat) (code request options : QJsonValue)
    (procedure : String) (rest : QJsonArray) (r : IqWampRegistration)
    (hrealm : (w.callees self).m_realm = true)
    (hreg : w.realm.registrations.registration procedure = some r) (hown : r.callee = self) :
    processRegister w self (code :: request :: options :: QJsonValue.string procedure :: rest)
      = some (sendRegistered w self request r.id) := by
  simp [processRegister, QJsonArray.atIndex, QJsonValue.isString, QJsonValue.toString, hrealm,
    IqWampRegistrations.hasRegistration, hreg, hown]

/-- A REGISTER frame for a procedure another session holds: an ERROR is reported and
nothing else happens. -/
theorem processRegister_other (w : World) (self : Nat) (code request options : QJsonValue)
    (procedure : String) (rest : QJsonArray) (r : IqWampRegistration)
    (hrealm : (w.callees self).m_realm = true)
    (hreg : w.realm.registrations.registration procedure = some r) (hown : r.callee ≠ self) :
    processRegister w self (code :: request :: options :: QJsonValue.string procedure :: rest)
      = some (sendError w self code.toInt request Errors.ProcedureAlreadyExists []) := by
  simp [processRegister, QJsonArray.atIndex, QJsonValue.isString, QJsonValue.toString, hrealm,
    IqWampRegistrations.hasRegistration, hreg, hown]

end IqWampCallee

/-! ## Effect of the handlers on the registration registry -/

namespace IqWampBroker

theorem publish_fold (callees : List Nat) (w : World) (subscriptionId publicationId : Int)
    (arguments : QJsonArray) (argumentsKw : QJsonObject) :
    callees.foldl (fun w callee => IqWampCallee.publishEvent w callee subscriptionId
        publicationId arguments argumentsKw) w
      = { w with sent := w.sent ++ callees.map (fun callee => (callee, QJsonValue.array
          (IqWampCallee.eventMessage subscriptionId publicationId arguments argumentsKw))) } := by
  induction callees generalizing w with
  | nil => simp
  | cons c cs ih =>
    simp only [List.foldl_cons, ih, List.map_cons]
    simp [IqWampCallee.publishEvent, IqWampCallee.send]

/-- What `publish` does: the call is recorded, the next publication id moves on, and one
EVENT per subscriber is sent, in the order of the subscriber set. -/
theorem publish_eq (w : World) (subscription : IqWampSubscription)
    (arguments : QJsonArray) (argumentsKw : QJsonObject) :
    publish w subscription arguments argumentsKw
      = (w.realm.broker.lastPublicationId,
          { w with
            realm := { w.realm with broker :=
              ⟨w.realm.broker.lastPublicationId + 1,
                w.realm.broker.calls ++ [⟨subscription, arguments, argumentsKw⟩]⟩ }
            sent := w.sent ++ subscription.callees.map (fun callee => (callee, QJsonValue.array
              (IqWampCallee.eventMessage subscription.id w.realm.broker.lastPublicationId
                arguments argumentsKw))) }) := by
  simp only [publish, publish_fold]

end IqWampBroker

namespace IqWampCallee

theorem processRegister_registrations (w w' : World) (self : Nat) (jsonMessage : QJsonArray)
    (h : processRegister w self jsonMessage = some w') :
    w'.realm.registrations = w.realm.registrations ∨
    ∃ procedure, w.realm.registrations.hasRegistration procedure = false ∧
      w'.realm.registrations = (w.realm.registrations.create procedure self).2 := by
  unfold processRegister at h
  simp only at h
  split_ifs at h with h1 h2 h3
  · cases h; exact Or.inl rfl
  · split at h
    · cases h
    · split_ifs at h <;> cases h <;> exact Or.inl rfl
  · cases h
    exact Or.inr ⟨_, by simpa using h3, rfl⟩

theorem processUnRegister_registrations (w w' : World) (self : Nat) (jsonMessage : QJsonArray)
    (h : processUnRegister w self jsonMessage = some w') :
    w'.realm.registrations = w.realm.registrations ∨
    ∃ id, w'.realm.registrations = w.realm.registrations.remove id := by
  unfold processUnRegister at h
  simp only at h
  split_ifs at h with h1 h2 h3
  · cases h; exact Or.inl rfl
  · cases h; exact Or.inl rfl
  · split at h
    · cases h
    · split_ifs at h
      · cases h; exact Or.inl rfl
      · cases h; exact Or.inr ⟨_, rfl⟩

theorem processSubscribe_registrations (w w' : World) (self : Nat) (jsonMessage : QJsonArray)
    (h : processSubscribe w self jsonMessage = some w') :
    w'.realm.registrations = w.realm.registrations := by
  unfold processSubscribe at h
  simp only at h
  split_ifs at h with h1 h2 h3
  · cases h; rfl
  · split at h
    · cases h
    · cases h
      split_ifs <;> rfl
  · cases h; rfl

theorem processUnSubscribe_registrations (w w' : World) (self : Nat) (jsonMessage : QJsonArray)
    (h : processUnSubscribe w self jsonMessage = some w') :
    w'.realm.registrations = w.realm.registrations := by
  unfold processUnSubscribe at h
  simp only at h
  split_ifs at h with h1 h2 h3
  · cases h; rfl
  · cases h; rfl
  · split at h
    · cases h
    · split_ifs at h <;> cases h <;> rfl

theorem processPublish_registrations (w w' : World) (self : Nat) (jsonMessage : QJsonArray)
    (h : processPublish w self jsonMessage = some w') :
    w'.realm.registrations = w.realm.registrations := by
  unfold processPublish at h
  simp only at h
  repeat' split at h
  all_goals first
    | (cases h; rfl)
    | (cases h; simp [IqWampBroker.publish_eq, sendPublished, send])
    | cases h

set_option maxHeartbeats 1000000 in
/-- The dispatcher either leaves the world alone, raises `hello`, or hands the parsed array
to one of the five handlers. -/
theorem processTextMessage_cases (fromJson : String → Option QJsonValue)
    (w : World) (self : Nat) (message : String) :
    processTextMessage fromJson w self message = some w ∨
    (∃ s, processTextMessage fromJson w self message
      = some { w with helloSignals := w.helloSignals ++ [(self, s)] }) ∨
    ∃ a, processTextMessage fromJson w self message = processSubscribe w self a ∨
      processTextMessage fromJson w self message = processUnSubscribe w self a ∨
      processTextMessage fromJson w self message = processPublish w self a ∨
      processTextMessage fromJson w self message = processRegister w self a ∨
      processTextMessage fromJson w self message = processUnRegister w self a := by
  generalize hr : processTextMessage fromJson w self message = r
  cases hv : fromJson message with
  | none =>
    simp only [processTextMessage, hv] at hr
    exact Or.inl hr.symm
  | some v =>
    simp only [processTextMessage, hv] at hr
    split_ifs at hr
    all_goals subst hr
    all_goals first
      | exact Or.inl (by with_reducible rfl)
      | exact Or.inr (Or.inl ⟨_, by with_reducible rfl⟩)
      | exact Or.inr (Or.inr ⟨_, Or.inl (by with_reducible rfl)⟩)
      | exact Or.inr (Or.inr ⟨_, Or.inr (Or.inl (by with_reducible rfl))⟩)
      | exact Or.inr (Or.inr ⟨_, Or.inr (Or.inr (Or.inl (by with_reducible rfl)))⟩)
      | exact Or.inr (Or.inr ⟨_, Or.inr (Or.inr (Or.inr (Or.inl (by with_reducible rfl))))⟩)
      | exact Or.inr (Or.inr ⟨_, Or.inr (Or.inr (Or.inr (Or.inr (by with_reducible rfl))))⟩)

/-- A single frame changes the registration registry in one of three ways: not at all, by a
`create` for a procedure that had no Registration, or by a `remove`. -/
theorem processTextMessage_registrations (fromJson : String → Option QJsonValue)
    (w w' : World) (self : Nat) (message : String)
    (h : processTextMessage fromJson w self message = some w') :
    w'.realm.registrations = w.realm.registrations ∨
    (∃ procedure, w.realm.registrations.hasRegistration procedure = false ∧
      w'.realm.registrations = (w.realm.registrations.create procedure self).2) ∨
    ∃ id, w'.realm.registrations = w.realm.registrations.remove id := by
  rcases processTextMessage_cases fromJson w self message with
    h0 | ⟨s, h0⟩ | ⟨a, h0 | h0 | h0 | h0 | h0⟩ <;> rw [h0] at h
  · cases h; exact Or.inl rfl
  · cases h; exact Or.inl rfl
  · exact Or.inl (processSubscribe_registrations _ _ _ _ h)
  · exact Or.inl (processUnSubscribe_registrations _ _ _ _ h)
  · exact Or.inl (processPublish_registrations _ _ _ _ h)
  · exact (processRegister_registrations _ _ _ _ h).imp id Or.inl
  · exact (processUnRegister_registrations _ _ _ _ h).imp id Or.inr

end IqWampCallee

namespace IqWampRegistrations

theorem create_procedures_nodup (r : IqWampRegistrations) (procedure : String) (callee : Nat)
    (hfree : r.hasRegistration procedure = false)
    (h : (r.items.map (fun x => x.procedure)).Nodup) :
    ((r.create procedure callee).2.items.map (fun x => x.procedure)).Nodup := by
  rw [hasRegistration_eq_false_iff] at hfree
  simp only [create, List.map_append, List.map_cons, List.map_nil]
  refine List.Nodup.append h (List.nodup_singleton _) ?_
  simp only [List.disjoint_singleton, List.mem_map, not_exists, not_and]
  exact fun x hx => hfree x hx

theorem remove_procedures_nodup (r : IqWampRegistrations) (id : Int)
    (h : (r.items.map (fun x => x.procedure)).Nodup) :
    ((r.remove id).items.map (fun x => x.procedure)).Nodup :=
  List.Nodup.sublist (List.Sublist.map _ (List.filter_sublist _)) h

theorem create_inv (r : IqWampRegistrations) (procedure : String) (callee : Nat)
    (hfree : r.hasRegistration procedure = false) (h : r.Inv) :
    (r.create procedure callee).2.Inv := by
  obtain ⟨h1, h2, h3⟩ := h
  refine ⟨?_, ?_, create_procedures_nodup r procedure callee hfree h3⟩
  · intro x hx
    simp only [create, List.mem_append, List.mem_singleton] at hx ⊢
    rcases hx with hx | hx
    · have := h1 x hx
      omega
    · subst hx
      simp
  · simp only [create, List.map_append, List.map_cons, List.map_nil]
    refine List.Nodup.append h2 (List.nodup_singleton _) ?_
    simp only [List.disjoint_singleton, List.mem_map, not_exists, not_and]
    intro x hx hid
    have := h1 x hx
    omega

theorem remove_inv (r : IqWampRegistrations) (id : Int) (h : r.Inv) : (r.remove id).Inv := by
  obtain ⟨h1, h2, h3⟩ := h
  refine ⟨?_, ?_, remove_procedures_nodup r id h3⟩
  · intro x hx
    simp only [remove, List.mem_filter] at hx
    exact h1 x hx.1
  · exact List.Nodup.sublist (List.Sublist.map _ (List.filter_sublist _)) h2

end IqWampRegistrations

namespace IqWampCallee

/-- A property of the registration registry that `create` (for a free procedure) and
`remove` preserve holds after any sequence of frames once it holds before. -/
theorem processTextMessages_registrations_induction (P : IqWampRegistrations → Prop)
    (hcreate : ∀ r procedure callee, r.hasRegistration procedure = false → P r →
      P (r.create procedure callee).2)
    (hremove : ∀ r id, P r → P (r.remove id))
    (fromJson : String → Option QJsonValue) (inputs : List (Nat × String)) (w w' : World)
    (hP : P w.realm.registrations)
    (h : processTextMessages fromJson w inputs = some w') :
    P w'.realm.registrations := by
  induction inputs generalizing w with
  | nil =>
    simp only [processTextMessages, Option.some.injEq] at h
    subst h
    exact hP
  | cons p rest ih =>
    obtain ⟨self, message⟩ := p
    simp only [processTextMessages] at h
    split at h
    · cases h
    · rename_i w1 h1
      refine ih w1 ?_ h
      rcases processTextMessage_registrations fromJson w w1 self message h1 with
        h2 | ⟨procedure, hfree, h2⟩ | ⟨id, h2⟩
      · rw [h2]; exact hP
      · rw [h2]; exact hcreate _ _ _ hfree hP
      · rw [h2]; exact hremove _ _ hP

/-- The consistency of the registration registry survives every sequence of frames. -/
theorem processTextMessages_preserves_inv (fromJson : String → Option QJsonValue)
    (inputs : List (Nat × String)) (w w' : World) (hinv : w.realm.registrations.Inv)
    (h : processTextMessages fromJson w inputs = some w') : w'.realm.registrations.Inv :=
  processTextMessages_registrations_induction IqWampRegistrations.Inv
    (fun r procedure callee hfree hr => IqWampRegistrations.create_inv r procedure callee hfree hr)
    (fun r id hr => IqWampRegistrations.remove_inv r id hr) fromJson inputs w w' hinv h

end IqWampCallee

/-! ## The UNREGISTER handler, case by case -/

namespace IqWampRegistrations

theorem registrationById_mem (r : IqWampRegistrations) (id : Int) (x : IqWampRegistration)
    (h : r.registrationById id = some x) : x ∈ r.items ∧ x.id = id := by
  refine ⟨List.mem_of_find?_eq_some h, ?_⟩
  have := List.find?_some h
  simpa using this

theorem hasRegistrationId_remove (r : IqWampRegistrations) (id : Int) :
    (r.remove id).hasRegistrationId id = false := by
  simp [hasRegistrationId, registrationById, remove, List.find?_eq_none, List.mem_filter]

/-- In a consistent registry the Registration found under an id is the only one with that
id, so `remove` takes out exactly that entry. -/
theorem remove_items_eq_erase (r : IqWampRegistrations) (id : Int) (x : IqWampRegistration)
    (hinv : r.Inv) (h : r.registrationById id = some x) :
    (r.remove id).items = r.items.erase x := by
  obtain ⟨hmem, hid⟩ := registrationById_mem r id x h
  have hnodup : r.items.Nodup := List.Nodup.of_map _ hinv.2.1
  rw [List.Nodup.erase_eq_filter hnodup]
  simp only [remove]
  apply List.filter_congr
  intro y hy
  have hinj := List.inj_on_of_nodup_map hinv.2.1
  by_cases hyx : y = x
  · subst hyx
    simp [hid]
  · have : y.id ≠ id := by
      intro hyid
      exact hyx (hinj hy hmem (hyid.trans hid.symm))
    simp [this, hyx]

/-- In a consistent registry, removing the Registration found under an id also frees its
procedure uri. -/
theorem hasRegistration_remove (r : IqWampRegistrations) (id : Int) (x : IqWampRegistration)
    (hinv : r.Inv) (h : r.registrationById id = some x) :
    (r.remove id).hasRegistration x.procedure = false := by
  obtain ⟨hmem, hid⟩ := registrationById_mem r id x h
  rw [hasRegistration_eq_false_iff]
  intro y hy hproc
  simp only [remove, List.mem_filter, Bool.not_eq_eq_eq_not, Bool.not_true,
    decide_eq_false_iff_not] at hy
  have hyx : y = x := List.inj_on_of_nodup_map hinv.2.2 hy.1 hmem hproc
  exact hy.2 (hyx ▸ hid)

end IqWampRegistrations

namespace IqWampCallee

/-- An UNREGISTER frame naming a Registration the requesting session holds. -/
theorem processUnRegister_own (w : World) (self : Nat) (code request : QJsonValue)
    (id : Int) (rest : QJsonArray) (r : IqWampRegistration)
    (hlo : -2147483648 ≤ id) (hhi : id ≤ 2147483647)
    (hrealm : (w.callees self).m_realm = true)
    (hreg : w.realm.registrations.registrationById id = some r) (hown : r.callee = self) :
    processUnRegister w self (code :: request :: QJsonValue.ofInt id :: rest)
      = some (sendUnRegistered
          { w with realm := { w.realm with registrations := w.realm.registrations.remove id } }
          self request) := by
  simp [processUnRegister, QJsonArray.atIndex, QJsonValue.toInt_ofInt id hlo hhi, hrealm,
    IqWampRegistrations.hasRegistrationId, hreg, hown]
  simp [QJsonValue.ofInt, QJsonValue.isDouble]

end IqWampCallee

theorem World.withRegistration_inv : World.withRegistration.realm.registrations.Inv := by
  simp [World.withRegistration, IqWampRegistrations.Inv]

/-! ## The subscription registry and the SUBSCRIBE handler -/

theorem modifyFirst_filter {α : Type} (p : α → Bool) (f : α → α) (hf : ∀ x, p (f x) = p x)
    (l : List α) : (modifyFirst p f l).filter p = modifyFirst p f (l.filter p) := by
  induction l with
  | nil => rfl
  | cons x xs ih =>
    by_cases hx : p x = true
    · simp [modifyFirst, hx, List.filter_cons, hf]
    · simp [modifyFirst, hx, List.filter_cons, ih]

theorem find?_of_filter_eq_singleton {α : Type} (p : α → Bool) (l : List α) (a : α)
    (h : l.filter p = [a]) : l.find? p = some a := by
  induction l with
  | nil => simp at h
  | cons x xs ih =>
    by_cases hx : p x = true
    · simp only [List.filter_cons, hx, if_true, List.cons.injEq] at h
      obtain ⟨hxa, _⟩ := h
      subst hxa
      simp [List.find?_cons, hx]
    · simp only [List.filter_cons, hx] at h
      simp only [List.find?_cons, hx]
      exact ih h

namespace IqWampSubscriptions

theorem hasSubscription_eq_false_iff (r : IqWampSubscriptions) (topic : String) :
    r.hasSubscription topic = false ↔ ∀ x ∈ r.items, x.topic ≠ topic := by
  simp [hasSubscription, subscription, List.find?_eq_none]

theorem filter_create (r : IqWampSubscriptions) (topic : String) (callee : Nat)
    (h : r.hasSubscription topic = false) :
    (r.create topic callee).2.items.filter (fun x => decide (x.topic = topic))
      = [⟨r.lastId, topic, [callee]⟩] := by
  rw [hasSubscription_eq_false_iff] at h
  have h0 : r.items.filter (fun x => decide (x.topic = topic)) = [] := by
    simp only [List.filter_eq_nil_iff, decide_eq_true_eq]
    exact h
  simp [create, List.filter_append, h0]

theorem filter_addCallee (r : IqWampSubscriptions) (topic : String) (callee : Nat)
    (s : IqWampSubscription)
    (h : r.items.filter (fun x => decide (x.topic = topic)) = [s]) :
    (r.addCallee topic callee).items.filter (fun x => decide (x.topic = topic))
      = [s.addCallee callee] := by
  simp only [addCallee]
  rw [modifyFirst_filter, h]
  · have hs : s.topic = topic := by
      have : s ∈ r.items.filter (fun x => decide (x.topic = topic)) := by simp [h]
      simpa using (List.mem_filter.mp this).2
    simp [modifyFirst, hs]
  · intro x
    simp only [IqWampSubscription.addCallee]
    split_ifs <;> rfl

end IqWampSubscriptions

namespace IqWampCallee

/-- A SUBSCRIBE frame for a topic without a Subscription: the Subscription is created. -/
theorem processSubscribe_new (w : World) (self : Nat) (code request options : QJsonValue)
    (topic : String) (rest : QJsonArray)
    (hrealm : (w.callees self).m_realm = true)
    (hfree : w.realm.subscriptions.hasSubscription topic = false) :
    processSubscribe w self (code :: request :: options :: QJsonValue.string topic :: rest)
      = some (sendSubscribed
          { w with realm := { w.realm with
              subscriptions := (w.realm.subscriptions.create topic self).2 } }
          self request w.realm.subscriptions.lastId) := by
  simp only [processSubscribe, QJsonArray.atIndex, List.getD_cons_succ,
    List.getD_cons_zero, QJsonValue.isString, QJsonValue.toString, hrealm, hfree]
  rfl

/-- A SUBSCRIBE frame from a session that is already a subscriber of the topic. -/
theorem processSubscribe_member (w : World) (self : Nat) (code request options : QJsonValue)
    (topic : String) (rest : QJsonArray) (s : IqWampSubscription)
    (hrealm : (w.callees self).m_realm = true)
    (hsub : w.realm.subscriptions.subscription topic = some s) (hmem : self ∈ s.callees) :
    processSubscribe w self (code :: request :: options :: QJsonValue.string topic :: rest)
      = some (sendSubscribed w self request s.id) := by
  simp [processSubscribe, QJsonArray.atIndex, QJsonValue.isString, QJsonValue.toString, hrealm,
    IqWampSubscriptions.hasSubscription, hsub, IqWampSubscription.hasCallee, hmem]

/-- A SUBSCRIBE frame from a session that is not yet a subscriber of the existing topic. -/
theorem processSubscribe_join (w : World) (self : Nat) (code request options : QJsonValue)
    (topic : String) (rest : QJsonArray) (s : IqWampSubscription)
    (hrealm : (w.callees self).m_realm = true)
    (hsub : w.realm.subscriptions.subscription topic = some s) (hmem : self ∉ s.callees) :
    processSubscribe w self (code :: request :: options :: QJsonValue.string topic :: rest)
      = some (sendSubscribed
          { w with realm := { w.realm with
              subscriptions := w.realm.subscriptions.addCallee topic self } }
          self request s.id) := by
  simp [processSubscribe, QJsonArray.atIndex, QJsonValue.isString, QJsonValue.toString, hrealm,
    IqWampSubscriptions.hasSubscription, hsub, IqWampSubscription.hasCallee, hmem]

end IqWampCallee

namespace IqWampCallee

/-- SUBSCRIBE frames for a topic that already has its one Subscription `s`: the
Subscription stays the only one for the topic and keeps its id, its subscriber set
grows by exactly the sessions that sent a frame, without duplicates, and every frame is
answered by SUBSCRIBED with the id of `s`. -/
theorem processTextMessages_subscribe_existing (fromJson : String → Option QJsonValue)
    (topic : String) (inputs : List (Nat × String × QJsonValue)) :
    ∀ (w : World) (s : IqWampSubscription),
      (∀ p ∈ inputs, ∃ options : QJsonObject, fromJson p.2.1 = some (QJsonValue.array
        [QJsonValue.ofInt MessageTypes.Subscribe, p.2.2, QJsonValue.object options,
          QJsonValue.string topic])) →
      (∀ p ∈ inputs, (w.callees p.1).m_realm = true) →
      w.realm.subscriptions.items.filter (fun x => decide (x.topic = topic)) = [s] →
      s.callees.Nodup →
      ∃ (w' : World) (s' : IqWampSubscription),
        processTextMessages fromJson w (inputs.map (fun p => (p.1, p.2.1))) = some w' ∧
        w'.realm.subscriptions.items.filter (fun x => decide (x.topic = topic)) = [s'] ∧
        s'.id = s.id ∧ s'.callees.Nodup ∧
        (∀ c, c ∈ s'.callees ↔ c ∈ s.callees ∨ c ∈ inputs.map (fun p => p.1)) ∧
        w'.callees = w.callees ∧
        w'.sent = w.sent ++ inputs.map (fun p => (p.1, QJsonValue.array
          [QJsonValue.ofInt MessageTypes.Subscribed, p.2.2, QJsonValue.ofInt s.id])) := by
  induction inputs with
  | nil =>
    intro w s _ _ hs hnd
    exact ⟨w, s, rfl, hs, rfl, hnd, by simp, rfl, by simp⟩
  | cons p rest ih =>
    intro w s hparse hrealm hs hnd
    obtain ⟨options, hp⟩ := hparse p (List.mem_cons_self _ _)
    have hrealmp := hrealm p (List.mem_cons_self _ _)
    have hsub : w.realm.subscriptions.subscription topic = some s :=
      find?_of_filter_eq_singleton _ _ _ hs
    have hparse' : ∀ q ∈ rest, ∃ options : QJsonObject, fromJson q.2.1 = some (QJsonValue.array
        [QJsonValue.ofInt MessageTypes.Subscribe, q.2.2, QJsonValue.object options,
          QJsonValue.string topic]) := fun q hq => hparse q (List.mem_cons_of_mem _ hq)
    have hrealm' : ∀ q ∈ rest, (w.callees q.1).m_realm = true :=
      fun q hq => hrealm q (List.mem_cons_of_mem _ hq)
    by_cases hmem : p.1 ∈ s.callees
    · have h1 := processSubscribe_member w p.1 (QJsonValue.ofInt MessageTypes.Subscribe) p.2.2
        (QJsonValue.object options) topic [] s hrealmp hsub hmem
      rw [← processTextMessage_subscribe fromJson w p.1 p.2.1 p.2.2 _ hp] at h1
      obtain ⟨w', s', hrun, hfilter, hid, hnd', hmem', hcallees, hsent⟩ :=
        ih (sendSubscribed w p.1 p.2.2 s.id) s hparse' hrealm' hs hnd
      refine ⟨w', s', ?_, hfilter, hid, hnd', ?_, hcallees, ?_⟩
      · simp only [List.map_cons, processTextMessages, h1]
        exact hrun
      · intro c
        rw [hmem' c]
        simp only [List.map_cons, List.mem_cons]
        constructor
        · rintro (h | h)
          · exact Or.inl h
          · exact Or.inr (Or.inr h)
        · rintro (h | h | h)
          · exact Or.inl h
          · exact Or.inl (h ▸ hmem)
          · exact Or.inr h
      · rw [hsent]
        simp [sendSubscribed, send]
    · have h1 := processSubscribe_join w p.1 (QJsonValue.ofInt MessageTypes.Subscribe) p.2.2
        (QJsonValue.object options) topic [] s hrealmp hsub hmem
      rw [← processTextMessage_subscribe fromJson w p.1 p.2.1 p.2.2 _ hp] at h1
      have hs1 := IqWampSubscriptions.filter_addCallee w.realm.subscriptions topic p.1 s hs
      have hadd : s.addCallee p.1 = ⟨s.id, s.topic, s.callees ++ [p.1]⟩ := by
        simp [IqWampSubscription.addCallee, hmem]
      rw [hadd] at hs1
      have hnd1 : (s.callees ++ [p.1]).Nodup := by
        refine List.Nodup.append hnd (List.nodup_singleton _) ?_
        simpa [List.disjoint_singleton] using hmem
      obtain ⟨w', s', hrun, hfilter, hid, hnd', hmem', hcallees, hsent⟩ :=
        ih (sendSubscribed
            { w with realm := { w.realm with
                subscriptions := w.realm.subscriptions.addCallee topic p.1 } }
            p.1 p.2.2 s.id)
          ⟨s.id, s.topic, s.callees ++ [p.1]⟩ hparse' hrealm' hs1 hnd1
      refine ⟨w', s', ?_, hfilter, hid, hnd', ?_, hcallees, ?_⟩
      · simp only [List.map_cons, processTextMessages, h1]
        exact hrun
      · intro c
        rw [hmem' c]
        simp only [List.map_cons, List.mem_cons, List.mem_append, List.mem_singleton]
        tauto
      · rw [hsent]
        simp [sendSubscribed, send]

end IqWampCallee

/-! ## The UNSUBSCRIBE handler, case by case -/

namespace IqWampCallee

end IqWampCallee

/-! ## The PUBLISH handler -/

namespace IqWampCallee

/-- What `readArguments` yields on a frame whose optional fields have the kinds section 6
gives them: element 4 as the arguments, and an empty object as the keyword arguments
in every case, because the latter is read from element 4, which is an array. -/
theorem readArguments_wellFormed (c0 c1 c2 c3 : QJsonValue) (rest : QJsonArray)
    (hargs : ∀ x, rest[0]? = some x → x.isArray = true)
    (hkw : ∀ x, rest[1]? = some x → x.isObject = true) :
    readArguments (c0 :: c1 :: c2 :: c3 :: rest)
      = some ((QJsonArray.atIndex (c0 :: c1 :: c2 :: c3 :: rest) 4).toArray, []) := by
  match rest, hargs, hkw with
  | [], _, _ => simp [readArguments, QJsonArray.atIndex, QJsonValue.toArray]
  | [a], hargs, _ =>
    have ha := hargs a rfl
    simp [readArguments, QJsonArray.atIndex, ha]
  | a :: k :: more, hargs, hkw =>
    have ha := hargs a rfl
    have hk := hkw k (by simp)
    cases a with
    | array l => simp [readArguments, QJsonArray.atIndex, QJsonValue.isArray, hk,
        QJsonValue.toArray, QJsonValue.toObject]
    | _ => simp [QJsonValue.isArray] at ha

/-- A PUBLISH frame for a topic without a Subscription. -/
theorem processPublish_missing (w : World) (self : Nat) (code request options : QJsonValue)
    (topic : String) (rest : QJsonArray) (args : QJsonArray × QJsonObject)
    (hread : readArguments (code :: request :: options :: QJsonValue.string topic :: rest)
      = some args)
    (hrealm : (w.callees self).m_realm = true)
    (hmissing : w.realm.subscriptions.hasSubscription topic = false) :
    processPublish w self (code :: request :: options :: QJsonValue.string topic :: rest)
      = some (sendError w self MessageTypes.Publish request Errors.NotFoundTopic []) := by
  simp only [processPublish, hread]
  simp [QJsonArray.atIndex, QJsonValue.isString, QJsonValue.toString, hrealm, hmissing]

/-- A PUBLISH frame for a topic with a Subscription. -/
theorem processPublish_found (w : World) (self : Nat) (code request options : QJsonValue)
    (topic : String) (rest : QJsonArray) (args : QJsonArray × QJsonObject)
    (s : IqWampSubscription)
    (hread : readArguments (code :: request :: options :: QJsonValue.string topic :: rest)
      = some args)
    (hrealm : (w.callees self).m_realm = true)
    (hsub : w.realm.subscriptions.subscription topic = some s) :
    processPublish w self (code :: request :: options :: QJsonValue.string topic :: rest)
      = some (sendPublished (IqWampBroker.publish w s args.1 args.2).2 self request
          (IqWampBroker.publish w s args.1 args.2).1) := by
  simp only [processPublish, hread]
  simp [QJsonArray.atIndex, QJsonValue.isString, QJsonValue.toString, hrealm,
    IqWampSubscriptions.hasSubscription, hsub]

end IqWampCallee

/-! ## The CALL handler and the member variables of the sessions -/

namespace IqWampCallee

/-- A CALL frame for a procedure without a Registration. -/
theorem processCall_missing (w : World) (self : Nat) (code request options : QJsonValue)
    (procedure : String) (rest : QJsonArray) (args : QJsonArray × QJsonObject)
    (hread : readArguments (code :: request :: options :: QJsonValue.string procedure :: rest)
      = some args)
    (hrealm : (w.callees self).m_realm = true)
    (hmissing : w.realm.registrations.hasRegistration procedure = false) :
    processCall w self (code :: request :: options :: QJsonValue.string procedure :: rest)
      = some (sendError w self MessageTypes.Call request Errors.NoSuchProcedure []) := by
  simp only [processCall, hread]
  simp [QJsonArray.atIndex, QJsonValue.isString, QJsonValue.toString, hrealm, hmissing]

/-- A CALL frame for a registered procedure: the dialer is invoked and the call future is
stored under the invocation id it returned. -/
theorem processCall_found (w : World) (self : Nat) (code request options : QJsonValue)
    (procedure : String) (rest : QJsonArray) (args : QJsonArray × QJsonObject)
    (r : IqWampRegistration)
    (hread : readArguments (code :: request :: options :: QJsonValue.string procedure :: rest)
      = some args)
    (hrealm : (w.callees self).m_realm = true)
    (hreg : w.realm.registrations.registration procedure = some r) :
    processCall w self (code :: request :: options :: QJsonValue.string procedure :: rest)
      = some { w with
          realm := { w.realm with dialer :=
            ⟨w.realm.dialer.lastInvocationId + 1,
              w.realm.dialer.calls ++ [⟨r, args.1, args.2⟩]⟩ }
          callees := Function.update w.callees self
            { w.callees self with m_callFutures :=
                ((w.realm.dialer.lastInvocationId, ⟨request⟩) ::
                  ((w.callees self).m_callFutures.filter
                    (fun f => !decide (f.1 = w.realm.dialer.lastInvocationId)))) } } := by
  simp only [processCall, hread]
  simp [QJsonArray.atIndex, QJsonValue.isString, QJsonValue.toString, hrealm,
    IqWampRegistrations.hasRegistration, hreg, IqWampDialer.call, call]

theorem processRegister_callees (w w' : World) (self : Nat) (jsonMessage : QJsonArray)
    (h : processRegister w self jsonMessage = some w') : w'.callees = w.callees := by
  unfold processRegister at h
  simp only at h
  repeat' split at h
  all_goals first
    | (cases h; rfl)
    | cases h

theorem processUnRegister_callees (w w' : World) (self : Nat) (jsonMessage : QJsonArray)
    (h : processUnRegister w self jsonMessage = some w') : w'.callees = w.callees := by
  unfold processUnRegister at h
  simp only at h
  repeat' split at h
  all_goals first
    | (cases h; rfl)
    | cases h

theorem processSubscribe_callees (w w' : World) (self : Nat) (jsonMessage : QJsonArray)
    (h : processSubscribe w self jsonMessage = some w') : w'.callees = w.callees := by
  unfold processSubscribe at h
  simp only at h
  repeat' split at h
  all_goals first
    | (cases h; rfl)
    | cases h

theorem processUnSubscribe_callees (w w' : World) (self : Nat) (jsonMessage : QJsonArray)
    (h : processUnSubscribe w self jsonMessage = some w') : w'.callees = w.callees := by
  unfold processUnSubscribe at h
  simp only at h
  repeat' split at h
  all_goals first
    | (cases h; rfl)
    | cases h

theorem processPublish_callees (w w' : World) (self : Nat) (jsonMessage : QJsonArray)
    (h : processPublish w self jsonMessage = some w') : w'.callees = w.callees := by
  unfold processPublish at h
  simp only at h
  repeat' split at h
  all_goals first
    | (cases h; rfl)
    | (cases h; simp [IqWampBroker.publish_eq, sendPublished, send])
    | cases h

/-- No inbound frame changes a member variable of any session object: the dispatcher
reaches no code that writes `m_sessionId`, `m_realm` or `m_callFutures`. -/
theorem processTextMessage_callees (fromJson : String → Option QJsonValue)
    (w w' : World) (self : Nat) (message : String)
    (h : processTextMessage fromJson w self message = some w') : w'.callees = w.callees := by
  rcases processTextMessage_cases fromJson w self message with
    h0 | ⟨s, h0⟩ | ⟨a, h0 | h0 | h0 | h0 | h0⟩ <;> rw [h0] at h
  · cases h; rfl
  · cases h; rfl
  · exact processSubscribe_callees _ _ _ _ h
  · exact processUnSubscribe_callees _ _ _ _ h
  · exact processPublish_callees _ _ _ _ h
  · exact processRegister_callees _ _ _ _ h
  · exact processUnRegister_callees _ _ _ _ h

end IqWampCallee

/-! ## Session ids under sequences of operations -/

namespace IqWampCallee

/-- The CALL handler writes no member variable of a session but `m_callFutures`. -/
theorem processCall_sessionId (w w' : World) (self other : Nat) (jsonMessage : QJsonArray)
    (h : processCall w self jsonMessage = some w') :
    (w'.callees other).m_sessionId = (w.callees other).m_sessionId := by
  unfold processCall at h
  simp only at h
  repeat' split at h
  all_goals first
    | (cases h; rfl)
    | (cases h
       by_cases hso : other = self
       · subst hso
         simp [IqWampDialer.call, call]
       · simp [IqWampDialer.call, call, Function.update_noteq hso])
    | cases h

end IqWampCallee

/-- An operation other than `sendWelcome` on the session itself leaves its session id as it
was. -/
theorem Operation.run_sessionId (fromJson : String → Option QJsonValue) (w w' : World)
    (self : Nat) (op : Operation)
    (hop : op.isSendWelcome = true → op.target ≠ self)
    (h : op.run fromJson w = some w') :
    IqWampCallee.sessionId w' self = IqWampCallee.sessionId w self := by
  cases op with
  | textMessageReceived s message =>
    simp only [Operation.run] at h
    simp only [IqWampCallee.sessionId, IqWampCallee.processTextMessage_callees _ _ _ _ _ h]
  | sendWelcome s uuid =>
    have hs : self ≠ s := fun e => hop rfl e.symm
    simp only [Operation.run, Option.some.injEq] at h
    subst h
    simp [IqWampCallee.sessionId, IqWampCallee.sendWelcome, IqWampCallee.createSessionId,
      IqWampCallee.send, Function.update_noteq hs]
  | sendAbort s reason details =>
    simp only [Operation.run, Option.some.injEq] at h
    subst h
    rfl
  | setRealm s =>
    simp only [Operation.run, Option.some.injEq] at h
    subst h
    by_cases hs : self = s
    · subst hs
      simp [IqWampCallee.sessionId, IqWampCallee.setRealm]
    · simp [IqWampCallee.sessionId, IqWampCallee.setRealm, Function.update_noteq hs]
  | publishEvent s subscriptionId publicationId arguments argumentsKw =>
    simp only [Operation.run, Option.some.injEq] at h
    subst h
    rfl
  | call s registrationId invocationId arguments argumentsKw =>
    simp only [Operation.run, Option.some.injEq] at h
    subst h
    rfl
  | processCall s jsonMessage =>
    simp only [Operation.run] at h
    exact IqWampCallee.processCall_sessionId w w' s self jsonMessage h

theorem Operation.runAll_sessionId (fromJson : String → Option QJsonValue) (self : Nat)
    (ops : List Operation) :
    ∀ (w w' : World), (∀ op ∈ ops, op.isSendWelcome = true → op.target ≠ self) →
      Operation.runAll fromJson w ops = some w' →
      IqWampCallee.sessionId w' self = IqWampCallee.sessionId w self := by
  induction ops with
  | nil =>
    intro w w' _ h
    simp only [Operation.runAll, Option.some.injEq] at h
    subst h
    rfl
  | cons op rest ih =>
    intro w w' hops h
    simp only [Operation.runAll] at h
    split at h
    · cases h
    · rename_i w1 h1
      rw [ih w1 w' (fun o ho => hops o (List.mem_cons_of_mem _ ho)) h]
      exact Operation.run_sessionId fromJson w w1 self op (hops op (List.mem_cons_self _ _)) h1

/-! ## ERROR frames among the frames a handler sends -/

theorem QJsonValue.ofInt_inj (a b : Int) : QJsonValue.ofInt a = QJsonValue.ofInt b ↔ a = b := by
  simp [QJsonValue.ofInt]

theorem ErrorsCorrelated.nil (self : Nat) (t : MessageTypes) (r : QJsonValue) :
    ErrorsCorrelated self t r [] := by
  intro f hf
  cases hf

/-- The frame `sendError` sends, with the default details, is correlated. -/
theorem ErrorsCorrelated.error (self : Nat) (t : MessageTypes) (r : QJsonValue) (e : Errors) :
    ErrorsCorrelated self t r [(self, QJsonValue.array
      [QJsonValue.ofInt MessageTypes.Error, QJsonValue.ofInt t, r, QJsonValue.object [],
        QJsonValue.string e.uri])] := by
  intro f hf _
  simp only [List.mem_singleton] at hf
  exact ⟨e, hf⟩

/-- Frames whose element 0 is another type code than ERROR are no ERROR frames. -/
theorem ErrorsCorrelated.of_codes (self : Nat) (t : MessageTypes) (r : QJsonValue)
    (frames : List (Nat × QJsonValue))
    (h : ∀ f ∈ frames, ∃ c : Int, c ≠ MessageTypes.Error ∧
      QJsonArray.atIndex f.2.toArray 0 = QJsonValue.ofInt c) :
    ErrorsCorrelated self t r frames := by
  intro f hf herr
  obtain ⟨c, hc, hf0⟩ := h f hf
  rw [hf0, QJsonValue.ofInt_inj] at herr
  exact absurd herr hc

theorem IqWampCallee.eventMessage_head (subscriptionId publicationId : Int)
    (arguments : QJsonArray) (argumentsKw : QJsonObject) :
    QJsonArray.atIndex
      (IqWampCallee.eventMessage subscriptionId publicationId arguments argumentsKw) 0
      = QJsonValue.ofInt MessageTypes.Event := by
  cases arguments <;> cases argumentsKw <;> simp [IqWampCallee.eventMessage, QJsonArray.atIndex]

namespace IqWampCallee

theorem processRegister_errors (w w' : World) (self : Nat) (jsonMessage : QJsonArray)
    (h : processRegister w self jsonMessage = some w') :
    ∃ frames, w'.sent = w.sent ++ frames ∧
      ErrorsCorrelated self (QJsonArray.atIndex jsonMessage 0).toInt
        (QJsonArray.atIndex jsonMessage 1) frames := by
  unfold processRegister at h
  simp only at h
  repeat' split at h
  all_goals first
    | (cases h; exact ⟨[], (List.append_nil _).symm, ErrorsCorrelated.nil _ _ _⟩)
    | (cases h; exact ⟨_, rfl, ErrorsCorrelated.error _ _ _ _⟩)
    | (cases h
       refine ⟨_, rfl, ErrorsCorrelated.of_codes _ _ _ _ ?_⟩
       intro f hf
       simp only [List.mem_singleton] at hf
       subst hf
       exact ⟨MessageTypes.Registered, by decide, rfl⟩)
    | cases h

theorem processUnRegister_errors (w w' : World) (self : Nat) (jsonMessage : QJsonArray)
    (h : processUnRegister w self jsonMessage = some w') :
    ∃ frames, w'.sent = w.sent ++ frames ∧
      ErrorsCorrelated self (QJsonArray.atIndex jsonMessage 0).toInt
        (QJsonArray.atIndex jsonMessage 1) frames := by
  unfold processUnRegister at h
  simp only at h
  repeat' split at h
  all_goals first
    | (cases h; exact ⟨[], (List.append_nil _).symm, ErrorsCorrelated.nil _ _ _⟩)
    | (cases h; exact ⟨_, rfl, ErrorsCorrelated.error _ _ _ _⟩)
    | (cases h
       refine ⟨_, rfl, ErrorsCorrelated.of_codes _ _ _ _ ?_⟩
       intro f hf
       simp only [List.mem_singleton] at hf
       subst hf
       exact ⟨MessageTypes.UnRegistered, by decide, rfl⟩)
    | cases h

theorem processUnSubscribe_errors (w w' : World) (self : Nat) (jsonMessage : QJsonArray)
    (h : processUnSubscribe w self jsonMessage = some w') :
    ∃ frames, w'.sent = w.sent ++ frames ∧
      ErrorsCorrelated self (QJsonArray.atIndex jsonMessage 0).toInt
        (QJsonArray.atIndex jsonMessage 1) frames := by
  unfold processUnSubscribe at h
  simp only at h
  repeat' split at h
  all_goals first
    | (cases h; exact ⟨[], (List.append_nil _).symm, ErrorsCorrelated.nil _ _ _⟩)
    | (cases h; exact ⟨_, rfl, ErrorsCorrelated.error _ _ _ _⟩)
    | (cases h
       refine ⟨_, rfl, ErrorsCorrelated.of_codes _ _ _ _ ?_⟩
       intro f hf
       simp only [List.mem_singleton] at hf
       subst hf
       exact ⟨MessageTypes.UnSubscribed, by decide, rfl⟩)
    | cases h

theorem processPublish_errors (w w' : World) (self : Nat) (jsonMessage : QJsonArray)
    (h : processPublish w self jsonMessage = some w') :
    ∃ frames, w'.sent = w.sent ++ frames ∧
      ErrorsCorrelated self MessageTypes.Publish (QJsonArray.atIndex jsonMessage 1) frames := by
  unfold processPublish at h
  simp only at h
  repeat' split at h
  all_goals first
    | (cases h; exact ⟨[], (List.append_nil _).symm, ErrorsCorrelated.nil _ _ _⟩)
    | (cases h; exact ⟨_, rfl, ErrorsCorrelated.error _ _ _ _⟩)
    | (cases h
       rename_i _ arguments argumentsKw _ _ _ _ subscription _
       refine ⟨subscription.callees.map (fun callee => (callee, QJsonValue.array
           (eventMessage subscription.id w.realm.broker.lastPublicationId arguments argumentsKw)))
         ++ [(self, QJsonValue.array [QJsonValue.ofInt MessageTypes.Published,
           QJsonArray.atIndex jsonMessage 1, QJsonValue.ofInt w.realm.broker.lastPublicationId])],
         ?_, ErrorsCorrelated.of_codes _ _ _ _ ?_⟩
       · simp [IqWampBroker.publish_eq, sendPublished, send]
       · intro f hf
         simp only [List.mem_append, List.mem_map, List.mem_singleton] at hf
         rcases hf with ⟨c, _, rfl⟩ | rfl
         · exact ⟨MessageTypes.Event, by decide, eventMessage_head _ _ _ _⟩
         · exact ⟨MessageTypes.Published, by decide, rfl⟩)
    | cases h

theorem processCall_errors (w w' : World) (self : Nat) (jsonMessage : QJsonArray)
    (h : processCall w self jsonMessage = some w') :
    ∃ frames, w'.sent = w.sent ++ frames ∧
      ErrorsCorrelated self MessageTypes.Call (QJsonArray.atIndex jsonMessage 1) frames := by
  unfold processCall at h
  simp only at h
  repeat' split at h
  all_goals first
    | (cases h; exact ⟨[], (List.append_nil _).symm, ErrorsCorrelated.nil _ _ _⟩)
    | (cases h; exact ⟨_, rfl, ErrorsCorrelated.error _ _ _ _⟩)
    | cases h

end IqWampCallee

/-! ## Frames dropped by the kind checks of the handlers -/

namespace IqWampCallee

theorem processRegister_not_string (w : World) (self : Nat) (jsonMessage : QJsonArray)
    (h : (QJsonArray.atIndex jsonMessage 3).isString = false) :
    processRegister w self jsonMessage = some w := by
  simp [processRegister, h]

theorem processSubscribe_not_string (w : World) (self : Nat) (jsonMessage : QJsonArray)
    (h : (QJsonArray.atIndex jsonMessage 3).isString = false) :
    processSubscribe w self jsonMessage = some w := by
  simp [processSubscribe, h]

theorem processPublish_not_string (w : World) (self : Nat) (jsonMessage : QJsonArray)
    (h : (QJsonArray.atIndex jsonMessage 3).isString = false) :
    processPublish w self jsonMessage = some w := by
  simp [processPublish, h]

theorem processCall_not_string (w : World) (self : Nat) (jsonMessage : QJsonArray)
    (h : (QJsonArray.atIndex jsonMessage 3).isString = false) :
    processCall w self jsonMessage = some w := by
  simp [processCall, h]

theorem processUnRegister_not_double (w : World) (self : Nat) (jsonMessage : QJsonArray)
    (h : (QJsonArray.atIndex jsonMessage 2).isDouble = false) :
    processUnRegister w self jsonMessage = some w := by
  simp [processUnRegister, h]

theorem processUnSubscribe_not_double (w : World) (self : Nat) (jsonMessage : QJsonArray)
    (h : (QJsonArray.atIndex jsonMessage 2).isDouble = false) :
    processUnSubscribe w self jsonMessage = some w := by
  simp [processUnSubscribe, h]

/-- With the realm set, the REGISTER handler completes on every array. -/
theorem processRegister_isSome (w : World) (self : Nat) (jsonMessage : QJsonArray)
    (hrealm : (w.callees self).m_realm = true) :
    (processRegister w self jsonMessage).isSome = true := by
  simp only [processRegister, IqWampRegistrations.hasRegistration, hrealm]
  cases w.realm.registrations.registration (QJsonArray.atIndex jsonMessage 3).toString <;>
    simp <;> split_ifs <;> simp

theorem processSubscribe_isSome (w : World) (self : Nat) (jsonMessage : QJsonArray)
    (hrealm : (w.callees self).m_realm = true) :
    (processSubscribe w self jsonMessage).isSome = true := by
  simp only [processSubscribe, IqWampSubscriptions.hasSubscription, hrealm]
  cases w.realm.subscriptions.subscription (QJsonArray.atIndex jsonMessage 3).toString <;>
    simp <;> split_ifs <;> simp

theorem processPublish_isSome (w : World) (self : Nat) (jsonMessage : QJsonArray)
    (hrealm : (w.callees self).m_realm = true) :
    (processPublish w self jsonMessage).isSome = true := by
  simp only [processPublish, IqWampSubscriptions.hasSubscription, hrealm]
  cases w.realm.subscriptions.subscription (QJsonArray.atIndex jsonMessage 3).toString <;>
    cases readArguments jsonMessage <;> simp <;> split_ifs <;> simp

theorem processCall_isSome (w : World) (self : Nat) (jsonMessage : QJsonArray)
    (hrealm : (w.callees self).m_realm = true) :
    (processCall w self jsonMessage).isSome = true := by
  simp only [processCall, IqWampRegistrations.hasRegistration, hrealm]
  cases w.realm.registrations.registration (QJsonArray.atIndex jsonMessage 3).toString <;>
    cases readArguments jsonMessage <;> simp <;> split_ifs <;> simp

/-- What the dispatcher does with a frame whose type code is REGISTER. -/
theorem processTextMessage_code_register (fromJson : String → Option QJsonValue) (w : World)
    (self : Nat) (message : String) (v : QJsonValue) (hv : fromJson message = some v)
    (hcode : (QJsonArray.atIndex v.toArray 0).toInt = MessageTypes.Register) :
    processTextMessage fromJson w self message = some w ∨
    processTextMessage fromJson w self message = processRegister w self v.toArray := by
  generalize hr : processTextMessage fromJson w self message = r
  simp [processTextMessage, hv, hcode] at hr
  split_ifs at hr <;> subst hr <;> first | exact Or.inl rfl | exact Or.inr rfl

theorem processTextMessage_code_subscribe (fromJson : String → Option QJsonValue) (w : World)
    (self : Nat) (message : String) (v : QJsonValue) (hv : fromJson message = some v)
    (hcode : (QJsonArray.atIndex v.toArray 0).toInt = MessageTypes.Subscribe) :
    processTextMessage fromJson w self message = some w ∨
    processTextMessage fromJson w self message = processSubscribe w self v.toArray := by
  generalize hr : processTextMessage fromJson w self message = r
  simp [processTextMessage, hv, hcode] at hr
  split_ifs at hr <;> subst hr <;> first | exact Or.inl rfl | exact Or.inr rfl

theorem processTextMessage_code_publish (fromJson : String → Option QJsonValue) (w : World)
    (self : Nat) (message : String) (v : QJsonValue) (hv : fromJson message = some v)
    (hcode : (QJsonArray.atIndex v.toArray 0).toInt = MessageTypes.Publish) :
    processTextMessage fromJson w self message = some w ∨
    processTextMessage fromJson w self message = processPublish w self v.toArray := by
  generalize hr : processTextMessage fromJson w self message = r
  simp [processTextMessage, hv, hcode] at hr
  split_ifs at hr <;> subst hr <;> first | exact Or.inl rfl | exact Or.inr rfl

theorem processTextMessage_code_unRegister (fromJson : String → Option QJsonValue) (w : World)
    (self : Nat) (message : String) (v : QJsonValue) (hv : fromJson message = some v)
    (hcode : (QJsonArray.atIndex v.toArray 0).toInt = MessageTypes.UnRegister) :
    processTextMessage fromJson w self message = some w ∨
    processTextMessage fromJson w self message = processUnRegister w self v.toArray := by
  generalize hr : processTextMessage fromJson w self message = r
  simp [processTextMessage, hv, hcode] at hr
  split_ifs at hr <;> subst hr <;> first | exact Or.inl rfl | exact Or.inr rfl

theorem processTextMessage_code_unSubscribe (fromJson : String → Option QJsonValue) (w : World)
    (self : Nat) (message : String) (v : QJsonValue) (hv : fromJson message = some v)
    (hcode : (QJsonArray.atIndex v.toArray 0).toInt = MessageTypes.UnSubscribe) :
    processTextMessage fromJson w self message = some w ∨
    processTextMessage fromJson w self message = processUnSubscribe w self v.toArray := by
  generalize hr : processTextMessage fromJson w self message = r
  simp [processTextMessage, hv, hcode] at hr
  split_ifs at hr <;> subst hr <;> first | exact Or.inl rfl | exact Or.inr rfl

/-- At a session whose realm is unset a handler either drops the frame or runs into the
unset realm pointer. -/
theorem handlers_noRealm (w : World) (self : Nat) (a : QJsonArray)
    (hrealm : (w.callees self).m_realm = false) :
    (processSubscribe w self a = some w ∨ processSubscribe w self a = none) ∧
    (processUnSubscribe w self a = some w ∨ processUnSubscribe w self a = none) ∧
    (processPublish w self a = some w ∨ processPublish w self a = none) ∧
    (processRegister w self a = some w ∨ processRegister w self a = none) ∧
    (processUnRegister w self a = some w ∨ processUnRegister w self a = none) := by
  refine ⟨?_, ?_, ?_, ?_, ?_⟩
  · by_cases h : (QJsonArray.atIndex a 3).isString = true <;> simp [processSubscribe, hrealm, h]
  · by_cases h : (QJsonArray.atIndex a 2).isDouble = true <;>
      simp [processUnSubscribe, hrealm, h]
  · by_cases h : (QJsonArray.atIndex a 3).isString = true <;>
      cases hread : readArguments a <;> simp [processPublish, hrealm, h, hread]
  · by_cases h : (QJsonArray.atIndex a 3).isString = true <;> simp [processRegister, hrealm, h]
  · by_cases h : (QJsonArray.atIndex a 2).isDouble = true <;>
      simp [processUnRegister, hrealm, h]

end IqWampCallee

/-- The dispatcher drops a REGISTER, SUBSCRIBE or PUBLISH frame whose element 3 is not a
string. -/
theorem IqWampCallee.processTextMessage_uri_not_string (fromJson : String → Option QJsonValue) (w : World)
    (self : Nat) (message : String) (v : QJsonValue)
    (hparse : fromJson message = some v)
    (huri : (QJsonArray.atIndex v.toArray 3).isString = false) :
    ((QJsonArray.atIndex v.toArray 0).toInt = MessageTypes.Register →
      IqWampCallee.processTextMessage fromJson w self message = some w) ∧
    ((QJsonArray.atIndex v.toArray 0).toInt = MessageTypes.Subscribe →
      IqWampCallee.processTextMessage fromJson w self message = some w) ∧
    ((QJsonArray.atIndex v.toArray 0).toInt = MessageTypes.Publish →
      IqWampCallee.processTextMessage fromJson w self message = some w) := by
  refine ⟨?_, ?_, ?_⟩ <;> intro hc
  · rcases IqWampCallee.processTextMessage_code_register fromJson w self message v hparse hc
      with h | h
    · exact h
    · exact h.trans (IqWampCallee.processRegister_not_string w self v.toArray huri)
  · rcases IqWampCallee.processTextMessage_code_subscribe fromJson w self message v hparse hc
      with h | h
    · exact h
    · exact h.trans (IqWampCallee.processSubscribe_not_string w self v.toArray huri)
  · rcases IqWampCallee.processTextMessage_code_publish fromJson w self message v hparse hc
      with h | h
    · exact h
    · exact h.trans (IqWampCallee.processPublish_not_string w self v.toArray huri)

/-! ## Claims -/

/-- C1: a text frame that is not valid JSON, or whose top-level value is not an array, or
whose array has fewer than 2 elements, or whose element 0 is not a number, or is a
non-whole number, or is an integer outside the dispatched type codes (WELCOME and EVENT
among them), leaves the whole world as it was: no frame is sent to any session, and the
registration registry, the subscription registry and every pending-call table are
unchanged. -/
theorem C1_malformed_frame_dropped (fromJson : String → Option QJsonValue) (w : World)
    (self : Nat) (message : String)
    (h : fromJson message = none ∨
      ∃ v, fromJson message = some v ∧
        (v.isArray = false ∨ v.toArray.length < 2 ∨
          (QJsonArray.atIndex v.toArray 0).isDouble = false ∨
          (∃ d : ℚ, QJsonArray.atIndex v.toArray 0 = QJsonValue.double d ∧ d.den ≠ 1) ∨
          (∃ i : Int, QJsonArray.atIndex v.toArray 0 = QJsonValue.double (i : ℚ) ∧
            i ∉ IqWampCallee.supportedCodes))) :
    IqWampCallee.processTextMessage fromJson w self message = some w := by
  rcases h with h | ⟨v, hv, h | h | h | ⟨d, hd, hden⟩ | ⟨i, hi, hcode⟩⟩
  · simp [IqWampCallee.processTextMessage, h]
  · simp [IqWampCallee.processTextMessage, hv, h]
  · simp only [IqWampCallee.processTextMessage, hv, h, if_true, ite_self]
  · simp only [IqWampCallee.processTextMessage, hv, h, Bool.not_false, if_true, ite_self]
  · apply IqWampCallee.processTextMessage_not_dispatched fromJson w self message v hv
    rw [hd, QJsonValue.toInt_double_not_whole d hden]
    decide
  · apply IqWampCallee.processTextMessage_not_dispatched fromJson w self message v hv
    rw [hi, QJsonValue.toInt_double_intCast]
    split_ifs
    · exact hcode
    · decide

/-- C1 at the frame `[64.5, 1]`, whose element 0 is a non-whole number. -/
theorem C1_malformed_frame_dropped_witness :
    IqWampCallee.processTextMessage
      (fun _ => some (QJsonValue.array [QJsonValue.double ⟨129, 2, by decide, by decide⟩,
        QJsonValue.ofInt 1]))
      ⟨⟨⟨1, []⟩, ⟨1, []⟩, ⟨1, []⟩, ⟨1, []⟩⟩, fun _ => ⟨"", true, []⟩, [], []⟩ 0 "[64.5, 1]"
      = some ⟨⟨⟨1, []⟩, ⟨1, []⟩, ⟨1, []⟩, ⟨1, []⟩⟩, fun _ => ⟨"", true, []⟩, [], []⟩ :=
  C1_malformed_frame_dropped _ _ 0 "[64.5, 1]"
    (Or.inr ⟨_, rfl, Or.inr (Or.inr (Or.inr (Or.inl ⟨_, rfl, by decide⟩)))⟩)

/-- C2: a well-formed frame `[REGISTER, requestId, options, procedure]` received by a session
that has joined the realm, when the registry holds no Registration for `procedure`,
appends exactly one Registration, owned by the session, whose id no Registration held
before; afterwards `hasRegistration(procedure)` is true, and the one frame sent is
`[REGISTERED, requestId, id]` to the session, with `requestId` echoed unchanged. -/
theorem C2_register_creates_registration (fromJson : String → Option QJsonValue) (w : World)
    (self : Nat) (message : String) (request : QJsonValue) (options : QJsonObject)
    (procedure : String)
    (hparse : fromJson message = some (QJsonValue.array
      [QJsonValue.ofInt MessageTypes.Register, request, QJsonValue.object options,
        QJsonValue.string procedure]))
    (hrealm : (w.callees self).m_realm = true)
    (hinv : w.realm.registrations.Inv)
    (hfree : w.realm.registrations.hasRegistration procedure = false) :
    ∃ (id : Int) (w' : World),
      IqWampCallee.processTextMessage fromJson w self message = some w' ∧
      w'.realm.registrations.items = w.realm.registrations.items ++ [⟨id, procedure, self⟩] ∧
      (∀ x ∈ w.realm.registrations.items, x.id ≠ id) ∧
      w'.realm.registrations.hasRegistration procedure = true ∧
      w'.realm.registrations.registration procedure = some ⟨id, procedure, self⟩ ∧
      w'.realm.subscriptions = w.realm.subscriptions ∧
      w'.callees = w.callees ∧
      w'.sent = w.sent ++ [(self, QJsonValue.array
        [QJsonValue.ofInt MessageTypes.Registered, request, QJsonValue.ofInt id])] := by
  have hreg := IqWampRegistrations.registration_create w.realm.registrations procedure self hfree
  have hrun : IqWampCallee.processTextMessage fromJson w self message
      = some (IqWampCallee.sendRegistered
          { w with realm := { w.realm with
              registrations := (w.realm.registrations.create procedure self).2 } }
          self request w.realm.registrations.lastId) := by
    rw [IqWampCallee.processTextMessage_register fromJson w self message request _ hparse]
    simp only [IqWampCallee.processRegister, QJsonArray.atIndex, List.getD_cons_succ,
      List.getD_cons_zero, QJsonValue.isString, QJsonValue.toString, hrealm, hfree]
    rfl
  refine ⟨w.realm.registrations.lastId, _, hrun, rfl, ?_, ?_, hreg, rfl, rfl, rfl⟩
  · intro x hx
    exact ne_of_lt (hinv.1 x hx)
  · simp only [IqWampRegistrations.hasRegistration] at hreg ⊢
    simp only [IqWampCallee.sendRegistered, IqWampCallee.send, hreg]
    rfl

/-- C2 at the frame `[64, 1, {}, "com.example.add"]` sent by session 0 to a router that has
just started: it is answered by `[65, 1, id]`. -/
theorem C2_register_creates_registration_witness :
    ∃ (id : Int) (w' : World),
      IqWampCallee.processTextMessage
        (fun _ => some (QJsonValue.array [QJsonValue.ofInt 64, QJsonValue.ofInt 1,
          QJsonValue.object [], QJsonValue.string "com.example.add"]))
        World.initial 0 "[64, 1, \x7b\x7d, \"com.example.add\"]" = some w' ∧
      w'.realm.registrations.items = [⟨id, "com.example.add", 0⟩] ∧
      w'.sent = [(0, QJsonValue.array [QJsonValue.ofInt 65, QJsonValue.ofInt 1,
        QJsonValue.ofInt id])] := by
  obtain ⟨id, w', h1, h2, _, _, _, _, _, h8⟩ :=
    C2_register_creates_registration
      (fun _ => some (QJsonValue.array [QJsonValue.ofInt 64, QJsonValue.ofInt 1,
        QJsonValue.object [], QJsonValue.string "com.example.add"]))
      World.initial 0 "[64, 1, \x7b\x7d, \"com.example.add\"]" (QJsonValue.ofInt 1) []
      "com.example.add" rfl rfl World.initial_registrations_inv rfl
  exact ⟨id, w', h1, h2, h8⟩

/-- C3: two well-formed REGISTER frames for the same procedure uri sent by the same session,
with any request ids: the second frame leaves the realm (and so the registry) exactly
as the first left it, and, unless another session holds the procedure, the two replies
are `[REGISTERED, requestId1, id]` and `[REGISTERED, requestId2, id]` with one and the
same registration id. -/
theorem C3_register_idempotent (fromJson : String → Option QJsonValue) (w : World)
    (self : Nat) (message1 message2 : String) (request1 request2 : QJsonValue)
    (options1 options2 : QJsonObject) (procedure : String)
    (hparse1 : fromJson message1 = some (QJsonValue.array
      [QJsonValue.ofInt MessageTypes.Register, request1, QJsonValue.object options1,
        QJsonValue.string procedure]))
    (hparse2 : fromJson message2 = some (QJsonValue.array
      [QJsonValue.ofInt MessageTypes.Register, request2, QJsonValue.object options2,
        QJsonValue.string procedure]))
    (hrealm : (w.callees self).m_realm = true) :
    ∃ (w1 w2 : World),
      IqWampCallee.processTextMessage fromJson w self message1 = some w1 ∧
      IqWampCallee.processTextMessage fromJson w1 self message2 = some w2 ∧
      w2.realm = w1.realm ∧
      ((∀ r, w.realm.registrations.registration procedure = some r → r.callee = self) →
        ∃ id : Int,
          w1.sent = w.sent ++ [(self, QJsonValue.array
            [QJsonValue.ofInt MessageTypes.Registered, request1, QJsonValue.ofInt id])] ∧
          w2.sent = w1.sent ++ [(self, QJsonValue.array
            [QJsonValue.ofInt MessageTypes.Registered, request2, QJsonValue.ofInt id])] ∧
          w2.realm.registrations.registration procedure = some ⟨id, procedure, self⟩) := by
  rw [IqWampCallee.processTextMessage_register fromJson w self message1 request1 _ hparse1]
  cases hreg : w.realm.registrations.registration procedure with
  | none =>
    have hfree : w.realm.registrations.hasRegistration procedure = false := by
      simp [IqWampRegistrations.hasRegistration, hreg]
    have hnew := IqWampRegistrations.registration_create w.realm.registrations procedure self hfree
    have h1 := IqWampCallee.processRegister_free w self (QJsonValue.ofInt MessageTypes.Register)
      request1 (QJsonValue.object options1) procedure [] hrealm hfree
    have h2 := IqWampCallee.processRegister_own
      (IqWampCallee.sendRegistered
        { w with realm := { w.realm with
            registrations := (w.realm.registrations.create procedure self).2 } }
        self request1 w.realm.registrations.lastId)
      self (QJsonValue.ofInt MessageTypes.Register)
      request2 (QJsonValue.object options2) procedure [] _ hrealm hnew rfl
    rw [← IqWampCallee.processTextMessage_register fromJson _ self message2 request2 _ hparse2]
      at h2
    exact ⟨_, _, h1, h2, rfl, fun _ => ⟨w.realm.registrations.lastId, rfl, rfl, hnew⟩⟩
  | some r =>
    by_cases hown : r.callee = self
    · have h1 := IqWampCallee.processRegister_own w self (QJsonValue.ofInt MessageTypes.Register)
        request1 (QJsonValue.object options1) procedure [] r hrealm hreg hown
      have h2 := IqWampCallee.processRegister_own (IqWampCallee.sendRegistered w self request1 r.id)
        self (QJsonValue.ofInt MessageTypes.Register)
        request2 (QJsonValue.object options2) procedure [] r hrealm hreg hown
      rw [← IqWampCallee.processTextMessage_register fromJson _ self message2 request2 _ hparse2]
        at h2
      refine ⟨_, _, h1, h2, rfl, fun _ => ⟨r.id, rfl, rfl, ?_⟩⟩
      have hproc : r.procedure = procedure := by
        have := List.find?_some hreg
        simpa using this
      have hr : r = ⟨r.id, procedure, self⟩ := by
        rw [← hown, ← hproc]
      rw [← hr]
      exact hreg
    · have h1 := IqWampCallee.processRegister_other w self
        (QJsonValue.ofInt MessageTypes.Register)
        request1 (QJsonValue.object options1) procedure [] r hrealm hreg hown
      have h2 := IqWampCallee.processRegister_other
        (IqWampCallee.sendError w self (QJsonValue.ofInt MessageTypes.Register).toInt request1
          Errors.ProcedureAlreadyExists [])
        self (QJsonValue.ofInt MessageTypes.Register)
        request2 (QJsonValue.object options2) procedure [] r hrealm hreg hown
      rw [← IqWampCallee.processTextMessage_register fromJson _ self message2 request2 _ hparse2]
        at h2
      exact ⟨_, _, h1, h2, rfl, fun h => absurd (h r rfl) hown⟩

/-- C3 at two REGISTER frames for `com.example.add`, with request ids 1 and 2, sent by
session 0 to a router that has just started. -/
theorem C3_register_idempotent_witness :
    ∃ (w1 w2 : World),
      IqWampCallee.processTextMessage
        (fun m => some (QJsonValue.array [QJsonValue.ofInt 64,
          if m = "first" then QJsonValue.ofInt 1 else QJsonValue.ofInt 2,
          QJsonValue.object [], QJsonValue.string "com.example.add"]))
        World.initial 0 "first" = some w1 ∧
      IqWampCallee.processTextMessage
        (fun m => some (QJsonValue.array [QJsonValue.ofInt 64,
          if m = "first" then QJsonValue.ofInt 1 else QJsonValue.ofInt 2,
          QJsonValue.object [], QJsonValue.string "com.example.add"]))
        w1 0 "second" = some w2 ∧
      w2.realm = w1.realm ∧
      ∃ id : Int,
        w1.sent = [(0, QJsonValue.array
          [QJsonValue.ofInt 65, QJsonValue.ofInt 1, QJsonValue.ofInt id])] ∧
        w2.sent = w1.sent ++ [(0, QJsonValue.array
          [QJsonValue.ofInt 65, QJsonValue.ofInt 2, QJsonValue.ofInt id])] := by
  obtain ⟨w1, w2, h1, h2, h3, h4⟩ :=
    C3_register_idempotent
      (fun m => some (QJsonValue.array [QJsonValue.ofInt 64,
        if m = "first" then QJsonValue.ofInt 1 else QJsonValue.ofInt 2,
        QJsonValue.object [], QJsonValue.string "com.example.add"]))
      World.initial 0 "first" "second" (QJsonValue.ofInt 1) (QJsonValue.ofInt 2) [] []
      "com.example.add" rfl rfl rfl
  obtain ⟨id, h5, h6, _⟩ := h4 (fun r hr => by
    simp [World.initial, IqWampRegistrations.registration] at hr)
  exact ⟨w1, w2, h1, h2, h3, id, h5, h6⟩

/-- C4: a well-formed REGISTER frame for a procedure whose Registration another session `T`
owns changes nothing but the record of sent frames, to which it adds the single frame
`[ERROR, REGISTER, requestId, {}, ProcedureAlreadyExists]` addressed to the requester;
the frames addressed to `T` are the same as before and the Registration found for the
procedure is still the one `T` owns. Moreover no sequence of frames, whatever the
sessions and texts, leads from a registry in which no two Registrations share a
procedure uri to one in which two do. -/
theorem C4_register_conflict (fromJson : String → Option QJsonValue) (w : World)
    (self : Nat) (message : String) (request : QJsonValue) (options : QJsonObject)
    (procedure : String) (r : IqWampRegistration)
    (hparse : fromJson message = some (QJsonValue.array
      [QJsonValue.ofInt MessageTypes.Register, request, QJsonValue.object options,
        QJsonValue.string procedure]))
    (hrealm : (w.callees self).m_realm = true)
    (hreg : w.realm.registrations.registration procedure = some r)
    (hother : r.callee ≠ self) :
    (∃ w' : World,
      IqWampCallee.processTextMessage fromJson w self message = some w' ∧
      w' = { w with sent := w.sent ++ [(self, QJsonValue.array
        [QJsonValue.ofInt MessageTypes.Error, QJsonValue.ofInt MessageTypes.Register, request,
          QJsonValue.object [], QJsonValue.string Errors.ProcedureAlreadyExists.uri])] } ∧
      w'.sent.filter (fun f => decide (f.1 = r.callee))
        = w.sent.filter (fun f => decide (f.1 = r.callee)) ∧
      w'.realm.registrations = w.realm.registrations ∧
      w'.realm.registrations.registration procedure = some r) ∧
    ∀ (inputs : List (Nat × String)) (w0 wN : World),
      (w0.realm.registrations.items.map (fun x => x.procedure)).Nodup →
      IqWampCallee.processTextMessages fromJson w0 inputs = some wN →
      (wN.realm.registrations.items.map (fun x => x.procedure)).Nodup := by
  constructor
  · have h1 := IqWampCallee.processRegister_other w self (QJsonValue.ofInt MessageTypes.Register)
      request (QJsonValue.object options) procedure [] r hrealm hreg hother
    rw [← IqWampCallee.processTextMessage_register fromJson _ self message request _ hparse] at h1
    refine ⟨_, h1, ?_, ?_, rfl, hreg⟩
    · simp [IqWampCallee.sendError, IqWampCallee.send, QJsonValue.ofInt, QJsonValue.toInt]
    · simp [IqWampCallee.sendError, IqWampCallee.send, List.filter_append, hother.symm]
  · intro inputs w0 wN h0 hrun
    exact IqWampCallee.processTextMessages_registrations_induction
      (fun r => (r.items.map (fun x => x.procedure)).Nodup)
      (fun r procedure callee hfree h =>
        IqWampRegistrations.create_procedures_nodup r procedure callee hfree h)
      (fun r id h => IqWampRegistrations.remove_procedures_nodup r id h)
      fromJson inputs w0 wN h0 hrun

/-- C4 at the frame `[64, 7, {}, "com.example.add"]` sent by session 0 when session 1 holds
`com.example.add`. -/
theorem C4_register_conflict_witness :
    ∃ w' : World,
      IqWampCallee.processTextMessage
        (fun _ => some (QJsonValue.array [QJsonValue.ofInt 64, QJsonValue.ofInt 7,
          QJsonValue.object [], QJsonValue.string "com.example.add"]))
        World.withRegistration 0 "[64, 7, \x7b\x7d, \"com.example.add\"]" = some w' ∧
      w'.sent = [(0, QJsonValue.array [QJsonValue.ofInt 8, QJsonValue.ofInt 64,
        QJsonValue.ofInt 7, QJsonValue.object [],
        QJsonValue.string "ProcedureAlreadyExists"])] ∧
      w'.realm.registrations = World.withRegistration.realm.registrations := by
  obtain ⟨⟨w', h1, h2, _, h4, _⟩, _⟩ :=
    C4_register_conflict
      (fun _ => some (QJsonValue.array [QJsonValue.ofInt 64, QJsonValue.ofInt 7,
        QJsonValue.object [], QJsonValue.string "com.example.add"]))
      World.withRegistration 0 "[64, 7, \x7b\x7d, \"com.example.add\"]" (QJsonValue.ofInt 7) []
      "com.example.add" ⟨1, "com.example.add", 1⟩ rfl rfl (by decide) (by decide)
  exact ⟨w', h1, by rw [h2]; rfl, h4⟩

/-- C6: a frame `[UNREGISTER, requestId, id]` received by the session that holds the
Registration with that id, in a consistent registry. The Registration is taken out of
the registry and every other Registration stays; afterwards `hasRegistration(id)` and
`hasRegistration(uri)` are both false; the one frame sent is
`[UNREGISTERED, requestId]` to the requester. A REGISTER frame for the same uri that
any session sends next is answered by `[REGISTERED, requestId, id]`. -/
theorem C6_unregister_by_owner (fromJson : String → Option QJsonValue) (w : World)
    (self : Nat) (message : String) (request : QJsonValue) (id : Int) (r : IqWampRegistration)
    (hparse : fromJson message = some (QJsonValue.array
      [QJsonValue.ofInt MessageTypes.UnRegister, request, QJsonValue.ofInt id]))
    (hlo : -2147483648 ≤ id) (hhi : id ≤ 2147483647)
    (hrealm : (w.callees self).m_realm = true)
    (hinv : w.realm.registrations.Inv)
    (hreg : w.realm.registrations.registrationById id = some r) (hown : r.callee = self) :
    ∃ w' : World,
      IqWampCallee.processTextMessage fromJson w self message = some w' ∧
      w'.realm.registrations.hasRegistrationId id = false ∧
      w'.realm.registrations.hasRegistration r.procedure = false ∧
      w'.realm.registrations.items = w.realm.registrations.items.erase r ∧
      w'.realm.registrations.lastId = w.realm.registrations.lastId ∧
      w'.realm.subscriptions = w.realm.subscriptions ∧
      w'.callees = w.callees ∧
      w'.sent = w.sent ++ [(self, QJsonValue.array
        [QJsonValue.ofInt MessageTypes.UnRegistered, request])] ∧
      ∀ (other : Nat) (message2 : String) (request2 : QJsonValue) (options2 : QJsonObject),
        fromJson message2 = some (QJsonValue.array
          [QJsonValue.ofInt MessageTypes.Register, request2, QJsonValue.object options2,
            QJsonValue.string r.procedure]) →
        (w.callees other).m_realm = true →
        ∃ (id2 : Int) (w'' : World),
          IqWampCallee.processTextMessage fromJson w' other message2 = some w'' ∧
          w''.realm.registrations.registration r.procedure = some ⟨id2, r.procedure, other⟩ ∧
          w''.sent = w'.sent ++ [(other, QJsonValue.array
            [QJsonValue.ofInt MessageTypes.Registered, request2, QJsonValue.ofInt id2])] := by
  have h1 := IqWampCallee.processUnRegister_own w self (QJsonValue.ofInt MessageTypes.UnRegister)
    request id [] r hlo hhi hrealm hreg hown
  rw [← IqWampCallee.processTextMessage_unRegister fromJson w self message request _ hparse] at h1
  have hfree := IqWampRegistrations.hasRegistration_remove w.realm.registrations id r hinv hreg
  refine ⟨_, h1, IqWampRegistrations.hasRegistrationId_remove _ id, hfree,
    IqWampRegistrations.remove_items_eq_erase _ id r hinv hreg, rfl, rfl, rfl, rfl, ?_⟩
  intro other message2 request2 options2 hparse2 hrealm2
  have h2 := IqWampCallee.processRegister_free
    (IqWampCallee.sendUnRegistered
      { w with realm := { w.realm with registrations := w.realm.registrations.remove id } }
      self request)
    other (QJsonValue.ofInt MessageTypes.Register) request2 (QJsonValue.object options2)
    r.procedure [] hrealm2 hfree
  rw [← IqWampCallee.processTextMessage_register fromJson _ other message2 request2 _ hparse2]
    at h2
  exact ⟨_, _, h2,
    IqWampRegistrations.registration_create (w.realm.registrations.remove id) r.procedure other
      hfree, rfl⟩

/-- C6 at the frame `[66, 5, 1]` sent by session 1, the holder of registration 1 for
`com.example.add`. -/
theorem C6_unregister_by_owner_witness :
    ∃ w' : World,
      IqWampCallee.processTextMessage
        (fun _ => some (QJsonValue.array [QJsonValue.ofInt 66, QJsonValue.ofInt 5,
          QJsonValue.ofInt 1]))
        World.withRegistration 1 "[66, 5, 1]" = some w' ∧
      w'.realm.registrations.hasRegistrationId 1 = false ∧
      w'.realm.registrations.hasRegistration "com.example.add" = false ∧
      w'.sent = [(1, QJsonValue.array [QJsonValue.ofInt 67, QJsonValue.ofInt 5])] := by
  obtain ⟨w', h1, h2, h3, _, _, _, _, h8, _⟩ :=
    C6_unregister_by_owner
      (fun _ => some (QJsonValue.array [QJsonValue.ofInt 66, QJsonValue.ofInt 5,
        QJsonValue.ofInt 1]))
      World.withRegistration 1 "[66, 5, 1]" (QJsonValue.ofInt 5) 1 ⟨1, "com.example.add", 1⟩
      rfl (by decide) (by decide) rfl World.withRegistration_inv (by decide) rfl
  exact ⟨w', h1, h2, h3, h8⟩

/-- C7: SUBSCRIBE frames for one topic, sent by any sessions in any order and any number of
times each, to a realm that had no Subscription for the topic (each input is the
session, the text it sent and the request id in that text). Afterwards the registry
holds exactly one Subscription for the topic; its subscriber set has no duplicates,
consists of exactly the sessions that sent a frame, and so has as many members as
there are distinct senders; and the frames sent are, in order, one
`[SUBSCRIBED, requestId, subscriptionId]` per input, to its sender, all with the id of
that Subscription. -/
theorem C7_subscribe_one_subscription (fromJson : String → Option QJsonValue) (w : World)
    (topic : String) (inputs : List (Nat × String × QJsonValue))
    (hne : inputs ≠ [])
    (hparse : ∀ p ∈ inputs, ∃ options : QJsonObject, fromJson p.2.1 = some (QJsonValue.array
      [QJsonValue.ofInt MessageTypes.Subscribe, p.2.2, QJsonValue.object options,
        QJsonValue.string topic]))
    (hrealm : ∀ p ∈ inputs, (w.callees p.1).m_realm = true)
    (hfree : w.realm.subscriptions.hasSubscription topic = false) :
    ∃ (w' : World) (s : IqWampSubscription),
      IqWampCallee.processTextMessages fromJson w (inputs.map (fun p => (p.1, p.2.1)))
        = some w' ∧
      w'.realm.subscriptions.items.filter (fun x => decide (x.topic = topic)) = [s] ∧
      w'.realm.subscriptions.subscription topic = some s ∧
      s.callees.Nodup ∧
      (∀ c, c ∈ s.callees ↔ c ∈ inputs.map (fun p => p.1)) ∧
      s.callees.length = (inputs.map (fun p => p.1)).dedup.length ∧
      w'.sent = w.sent ++ inputs.map (fun p => (p.1, QJsonValue.array
        [QJsonValue.ofInt MessageTypes.Subscribed, p.2.2, QJsonValue.ofInt s.id])) := by
  cases inputs with
  | nil => exact absurd rfl hne
  | cons p rest =>
    obtain ⟨options, hp⟩ := hparse p (List.mem_cons_self _ _)
    have hrealmp := hrealm p (List.mem_cons_self _ _)
    have h1 := IqWampCallee.processSubscribe_new w p.1 (QJsonValue.ofInt MessageTypes.Subscribe)
      p.2.2 (QJsonValue.object options) topic [] hrealmp hfree
    rw [← IqWampCallee.processTextMessage_subscribe fromJson w p.1 p.2.1 p.2.2 _ hp] at h1
    have hs1 := IqWampSubscriptions.filter_create w.realm.subscriptions topic p.1 hfree
    obtain ⟨w', s', hrun, hfilter, hid, hnd', hmem', _, hsent⟩ :=
      IqWampCallee.processTextMessages_subscribe_existing fromJson topic rest
        (IqWampCallee.sendSubscribed
          { w with realm := { w.realm with
              subscriptions := (w.realm.subscriptions.create topic p.1).2 } }
          p.1 p.2.2 w.realm.subscriptions.lastId)
        ⟨w.realm.subscriptions.lastId, topic, [p.1]⟩
        (fun q hq => hparse q (List.mem_cons_of_mem _ hq))
        (fun q hq => hrealm q (List.mem_cons_of_mem _ hq))
        hs1 (List.nodup_singleton _)
    have hmem : ∀ c, c ∈ s'.callees ↔ c ∈ (p :: rest).map (fun p => p.1) := by
      intro c
      rw [hmem' c]
      simp
    refine ⟨w', s', ?_, hfilter, find?_of_filter_eq_singleton _ _ _ hfilter, hnd', hmem, ?_, ?_⟩
    · simp only [List.map_cons, IqWampCallee.processTextMessages, h1]
      exact hrun
    · apply List.Perm.length_eq
      rw [List.perm_ext_iff_of_nodup hnd' (List.nodup_dedup _)]
      intro c
      rw [hmem c, List.mem_dedup]
    · rw [hsent, hid]
      simp [IqWampCallee.sendSubscribed, IqWampCallee.send]

/-- C7 at three SUBSCRIBE frames for `com.example.topic`, from sessions 1, 2 and 1 again, with
request ids 10, 11 and 12. -/
theorem C7_subscribe_one_subscription_witness :
    ∃ (w' : World) (s : IqWampSubscription),
      IqWampCallee.processTextMessages
        (fun m => some (QJsonValue.array [QJsonValue.ofInt 32,
          if m = "a" then QJsonValue.ofInt 10
          else if m = "b" then QJsonValue.ofInt 11 else QJsonValue.ofInt 12,
          QJsonValue.object [], QJsonValue.string "com.example.topic"]))
        World.initial [(1, "a"), (2, "b"), (1, "c")] = some w' ∧
      w'.realm.subscriptions.items.filter (fun x => decide (x.topic = "com.example.topic"))
        = [s] ∧
      s.callees.length = 2 ∧
      w'.sent = [
        (1, QJsonValue.array [QJsonValue.ofInt 33, QJsonValue.ofInt 10, QJsonValue.ofInt s.id]),
        (2, QJsonValue.array [QJsonValue.ofInt 33, QJsonValue.ofInt 11, QJsonValue.ofInt s.id]),
        (1, QJsonValue.array [QJsonValue.ofInt 33, QJsonValue.ofInt 12, QJsonValue.ofInt s.id])]
      := by
  obtain ⟨w', s, h1, h2, _, _, _, h6, h7⟩ :=
    C7_subscribe_one_subscription
      (fun m => some (QJsonValue.array [QJsonValue.ofInt 32,
        if m = "a" then QJsonValue.ofInt 10
        else if m = "b" then QJsonValue.ofInt 11 else QJsonValue.ofInt 12,
        QJsonValue.object [], QJsonValue.string "com.example.topic"]))
      World.initial "com.example.topic"
      [(1, "a", QJsonValue.ofInt 10), (2, "b", QJsonValue.ofInt 11),
        (1, "c", QJsonValue.ofInt 12)]
      (by simp)
      (by
        intro p hp
        simp only [List.mem_cons, List.mem_singleton, List.not_mem_nil, or_false] at hp
        rcases hp with rfl | rfl | rfl <;> exact ⟨[], rfl⟩)
      (fun _ _ => rfl) rfl
  exact ⟨w', s, h1, h2, h6.trans (by decide), h7⟩

/-- C9: a frame `[PUBLISH, requestId, options, topic, ...]` whose optional element 4 is an
array and optional element 5 an object, received by a session that has joined the
realm. If the realm has no Subscription for the topic, the world changes only by the
one frame `[ERROR, PUBLISH, requestId, {}, NotFoundTopic]` sent to the requester, so
the broker is not invoked. Otherwise the broker records exactly one more invocation,
on the Subscription found for the topic; the frames sent are those of the broker (one
EVENT per subscriber, none of them the PUBLISHED frame) followed by the single frame
`[PUBLISHED, requestId, publicationId]` to the requester, where `publicationId` is the
value the broker returned. In both cases the subscription registry is as before. -/
theorem C9_publish (fromJson : String → Option QJsonValue) (w : World)
    (self : Nat) (message : String) (request : QJsonValue) (options : QJsonObject)
    (topic : String) (rest : QJsonArray)
    (hparse : fromJson message = some (QJsonValue.array
      (QJsonValue.ofInt MessageTypes.Publish :: request :: QJsonValue.object options ::
        QJsonValue.string topic :: rest)))
    (hargs : ∀ x, rest[0]? = some x → x.isArray = true)
    (hkw : ∀ x, rest[1]? = some x → x.isObject = true)
    (hrealm : (w.callees self).m_realm = true) :
    (w.realm.subscriptions.hasSubscription topic = false →
      IqWampCallee.processTextMessage fromJson w self message
        = some { w with sent := w.sent ++ [(self, QJsonValue.array
            [QJsonValue.ofInt MessageTypes.Error, QJsonValue.ofInt MessageTypes.Publish,
              request, QJsonValue.object [], QJsonValue.string Errors.NotFoundTopic.uri])] }) ∧
    (∀ s, w.realm.subscriptions.subscription topic = some s →
      ∃ (w' : World) (arguments : QJsonArray) (argumentsKw : QJsonObject) (publicationId : Int),
        IqWampCallee.processTextMessage fromJson w self message = some w' ∧
        publicationId = (IqWampBroker.publish w s arguments argumentsKw).1 ∧
        w'.realm.broker.calls = w.realm.broker.calls ++ [⟨s, arguments, argumentsKw⟩] ∧
        w'.sent = w.sent
          ++ s.callees.map (fun callee => (callee, QJsonValue.array
              (IqWampCallee.eventMessage s.id publicationId arguments argumentsKw)))
          ++ [(self, QJsonValue.array
              [QJsonValue.ofInt MessageTypes.Published, request,
                QJsonValue.ofInt publicationId])] ∧
        QJsonValue.array (IqWampCallee.eventMessage s.id publicationId arguments argumentsKw)
          ≠ QJsonValue.array [QJsonValue.ofInt MessageTypes.Published, request,
              QJsonValue.ofInt publicationId] ∧
        w'.realm.subscriptions = w.realm.subscriptions ∧
        w'.realm.registrations = w.realm.registrations ∧
        w'.callees = w.callees) := by
  have hread := IqWampCallee.readArguments_wellFormed (QJsonValue.ofInt MessageTypes.Publish)
    request (QJsonValue.object options) (QJsonValue.string topic) rest hargs hkw
  rw [IqWampCallee.processTextMessage_publish fromJson w self message request _ hparse]
  constructor
  · intro hmissing
    rw [IqWampCallee.processPublish_missing w self _ request _ topic rest _ hread hrealm hmissing]
    simp [IqWampCallee.sendError, IqWampCallee.send]
  · intro s hsub
    refine ⟨_, (QJsonArray.atIndex (QJsonValue.ofInt MessageTypes.Publish :: request ::
        QJsonValue.object options :: QJsonValue.string topic :: rest) 4).toArray, [],
      w.realm.broker.lastPublicationId,
      IqWampCallee.processPublish_found w self _ request _ topic rest _ s hread hrealm hsub,
      rfl, ?_, ?_, ?_, ?_, ?_, ?_⟩
    · simp [IqWampBroker.publish_eq, IqWampCallee.sendPublished, IqWampCallee.send]
    · simp [IqWampBroker.publish_eq, IqWampCallee.sendPublished, IqWampCallee.send]
    · intro h
      have hlen := congrArg (fun v => v.toArray.length) h
      simp only [QJsonValue.toArray, IqWampCallee.eventMessage] at hlen
      split_ifs at hlen <;> simp at hlen
    · simp [IqWampBroker.publish_eq, IqWampCallee.sendPublished, IqWampCallee.send]
    · simp [IqWampBroker.publish_eq, IqWampCallee.sendPublished, IqWampCallee.send]
    · simp [IqWampBroker.publish_eq, IqWampCallee.sendPublished, IqWampCallee.send]

/-- C9 at the frame `[16, 4, {}, "com.example.topic", [1]]` sent by session 0 when sessions 1
and 2 subscribe to the topic: one EVENT each for 1 and 2, then PUBLISHED for 0. -/
theorem C9_publish_witness :
    ∃ (w' : World) (arguments : QJsonArray) (argumentsKw : QJsonObject) (publicationId : Int),
      IqWampCallee.processTextMessage
        (fun _ => some (QJsonValue.array [QJsonValue.ofInt 16, QJsonValue.ofInt 4,
          QJsonValue.object [], QJsonValue.string "com.example.topic",
          QJsonValue.array [QJsonValue.ofInt 1]]))
        World.withSubscription 0 "[16, 4, \x7b\x7d, \"com.example.topic\", [1]]" = some w' ∧
      w'.realm.broker.calls = [⟨⟨1, "com.example.topic", [1, 2]⟩, arguments, argumentsKw⟩] ∧
      w'.sent =
        [(1, QJsonValue.array (IqWampCallee.eventMessage 1 publicationId arguments argumentsKw)),
         (2, QJsonValue.array (IqWampCallee.eventMessage 1 publicationId arguments argumentsKw)),
         (0, QJsonValue.array [QJsonValue.ofInt 17, QJsonValue.ofInt 4,
           QJsonValue.ofInt publicationId])] ∧
      w'.realm.subscriptions = World.withSubscription.realm.subscriptions := by
  obtain ⟨w', arguments, argumentsKw, publicationId, h1, _, h3, h4, _, h6, _, _⟩ :=
    (C9_publish
      (fun _ => some (QJsonValue.array [QJsonValue.ofInt 16, QJsonValue.ofInt 4,
        QJsonValue.object [], QJsonValue.string "com.example.topic",
        QJsonValue.array [QJsonValue.ofInt 1]]))
      World.withSubscription 0 "[16, 4, \x7b\x7d, \"com.example.topic\", [1]]"
      (QJsonValue.ofInt 4) [] "com.example.topic" [QJsonValue.array [QJsonValue.ofInt 1]] rfl
      (by
        intro x hx
        simp only [List.getElem?_cons_zero, Option.some.injEq] at hx
        subst hx
        rfl)
      (by
        intro x hx
        simp at hx)
      rfl).2 ⟨1, "com.example.topic", [1, 2]⟩ (by decide)
  exact ⟨w', arguments, argumentsKw, publicationId, h1, h3, h4, h6⟩

/-- C10 (the code departs from the claim): the frame
`[16, 4, {}, "com.example.topic", [1], {"k": 2}]` sent by session 0 when sessions 1 and 2
subscribe to the topic. The broker is handed the arguments `[1]` of element 4, but an
empty object in place of the keyword arguments `{"k": 2}` of element 5, and the EVENT
frames carry no keyword arguments. -/
theorem C10_publish_drops_argumentsKw :
    ∃ w' : World,
      IqWampCallee.processTextMessage
        (fun _ => some (QJsonValue.array [QJsonValue.ofInt 16, QJsonValue.ofInt 4,
          QJsonValue.object [], QJsonValue.string "com.example.topic",
          QJsonValue.array [QJsonValue.ofInt 1],
          QJsonValue.object [("k", QJsonValue.ofInt 2)]]))
        World.withSubscription 0
        "[16, 4, \x7b\x7d, \"com.example.topic\", [1], \x7b\"k\": 2\x7d]" = some w' ∧
      w'.realm.broker.calls.map (fun c => c.arguments) = [[QJsonValue.ofInt 1]] ∧
      w'.realm.broker.calls.map (fun c => c.argumentsKw) = [[]] ∧
      w'.realm.broker.calls.map (fun c => c.argumentsKw) ≠ [[("k", QJsonValue.ofInt 2)]] ∧
      w'.sent =
        [(1, QJsonValue.array [QJsonValue.ofInt 36, QJsonValue.ofInt 1, QJsonValue.ofInt 1,
           QJsonValue.object [], QJsonValue.array [QJsonValue.ofInt 1]]),
         (2, QJsonValue.array [QJsonValue.ofInt 36, QJsonValue.ofInt 1, QJsonValue.ofInt 1,
           QJsonValue.object [], QJsonValue.array [QJsonValue.ofInt 1]]),
         (0, QJsonValue.array [QJsonValue.ofInt 17, QJsonValue.ofInt 4, QJsonValue.ofInt 1])] := by
  refine ⟨_, (IqWampCallee.processTextMessage_publish _ World.withSubscription 0 _
    (QJsonValue.ofInt 4) _ rfl).trans
    (IqWampCallee.processPublish_found World.withSubscription 0 _ (QJsonValue.ofInt 4) _
      "com.example.topic" _ ([QJsonValue.ofInt 1], []) ⟨1, "com.example.topic", [1, 2]⟩
      (by simp [IqWampCallee.readArguments, QJsonArray.atIndex, QJsonValue.isArray,
        QJsonValue.isObject, QJsonValue.toArray, QJsonValue.toObject])
      rfl (by decide)), ?_, ?_, ?_, ?_⟩
  · simp [IqWampBroker.publish_eq, IqWampCallee.sendPublished, IqWampCallee.send,
      World.withSubscription]
  · simp [IqWampBroker.publish_eq, IqWampCallee.sendPublished, IqWampCallee.send,
      World.withSubscription]
  · simp [IqWampBroker.publish_eq, IqWampCallee.sendPublished, IqWampCallee.send,
      World.withSubscription]
  · simp [IqWampBroker.publish_eq, IqWampCallee.sendPublished, IqWampCallee.send,
      World.withSubscription, IqWampCallee.eventMessage]

/-- C11 (the code departs from the claim): the frame `[48, 2, {}, "com.example.add"]`
delivered to `processTextMessage` of session 0 when nothing is registered. The switch
has no `case` for CALL, so the frame falls to `default`: nothing is sent and the world
is as before, although `processCall`, which no path reaches, would have answered the
same frame with `[ERROR, CALL, 2, {}, NoSuchProcedure]`. -/
theorem C11_call_frame_not_dispatched :
    IqWampCallee.processTextMessage
      (fun _ => some (QJsonValue.array [QJsonValue.ofInt 48, QJsonValue.ofInt 2,
        QJsonValue.object [], QJsonValue.string "com.example.add"]))
      World.initial 0 "[48, 2, \x7b\x7d, \"com.example.add\"]" = some World.initial ∧
    World.initial.sent = [] ∧
    IqWampCallee.processCall World.initial 0
      [QJsonValue.ofInt 48, QJsonValue.ofInt 2, QJsonValue.object [],
        QJsonValue.string "com.example.add"]
      = some { World.initial with sent := [(0, QJsonValue.array
          [QJsonValue.ofInt 8, QJsonValue.ofInt 48, QJsonValue.ofInt 2, QJsonValue.object [],
            QJsonValue.string "NoSuchProcedure"])] } := by
  refine ⟨?_, rfl, ?_⟩
  · exact IqWampCallee.processTextMessage_not_dispatched _ World.initial 0 _ _ rfl (by decide)
  · rw [IqWampCallee.processCall_missing World.initial 0 _ _ _ "com.example.add" [] ([], [])
      (by simp [IqWampCallee.readArguments]) rfl rfl]
    simp [IqWampCallee.sendError, IqWampCallee.send, World.initial, Errors.uri]

/-- C12 (the code departs from the claim): session 0 calls `com.example.add`, which session 1
holds, with the frame `[48, 2, {}, "com.example.add", [2, 3]]`. Delivered to
`processTextMessage` the frame is dropped, so no resolution can follow. Handled by
`processCall`, the call future is stored under invocation id 1 with request id 2; when
session 1 then sends `[50, 1, {}, [5]]` (RESULT) or `[8, 68, 1, {}, "com.example.failed"]`
(ERROR), the frame falls to `default` in `processTextMessage`: the world is as before,
so nothing is forwarded to session 0 and its pending-call table still holds invocation
id 1. -/
theorem C12_pending_call_never_resolved :
    IqWampCallee.processTextMessage
      (fun _ => some (QJsonValue.array [QJsonValue.ofInt 48, QJsonValue.ofInt 2,
        QJsonValue.object [], QJsonValue.string "com.example.add",
        QJsonValue.array [QJsonValue.ofInt 2, QJsonValue.ofInt 3]]))
      World.withRegistration 0 "[48, 2, \x7b\x7d, \"com.example.add\", [2, 3]]"
      = some World.withRegistration ∧
    ∃ w1 : World,
      IqWampCallee.processCall World.withRegistration 0
        [QJsonValue.ofInt 48, QJsonValue.ofInt 2, QJsonValue.object [],
          QJsonValue.string "com.example.add",
          QJsonValue.array [QJsonValue.ofInt 2, QJsonValue.ofInt 3]] = some w1 ∧
      (w1.callees 0).m_callFutures.map (fun f => f.1) = [1] ∧
      (w1.callees 0).m_callFutures.map (fun f => f.2.callRequest) = [QJsonValue.ofInt 2] ∧
      w1.sent = [] ∧
      IqWampCallee.processTextMessage
        (fun _ => some (QJsonValue.array [QJsonValue.ofInt 50, QJsonValue.ofInt 1,
          QJsonValue.object [], QJsonValue.array [QJsonValue.ofInt 5]]))
        w1 1 "[50, 1, \x7b\x7d, [5]]" = some w1 ∧
      IqWampCallee.processTextMessage
        (fun _ => some (QJsonValue.array [QJsonValue.ofInt 8, QJsonValue.ofInt 68,
          QJsonValue.ofInt 1, QJsonValue.object [], QJsonValue.string "com.example.failed"]))
        w1 1 "[8, 68, 1, \x7b\x7d, \"com.example.failed\"]" = some w1 := by
  refine ⟨IqWampCallee.processTextMessage_not_dispatched _ _ 0 _ _ rfl (by decide),
    _, IqWampCallee.processCall_found World.withRegistration 0 _ _ _ "com.example.add" _
    ([QJsonValue.ofInt 2, QJsonValue.ofInt 3], []) ⟨1, "com.example.add", 1⟩
    (by simp [IqWampCallee.readArguments, QJsonArray.atIndex, QJsonValue.isArray,
      QJsonValue.toArray]) rfl (by decide), ?_, ?_, ?_, ?_, ?_⟩
  · simp [World.withRegistration]
  · simp [World.withRegistration]
  · simp [World.withRegistration]
  · exact IqWampCallee.processTextMessage_not_dispatched _ _ 1 _ _ rfl (by decide)
  · exact IqWampCallee.processTextMessage_not_dispatched _ _ 1 _ _ rfl (by decide)

/-- C13 as stated fails: a second `sendWelcome` on session 0, for which the generator
produced "b" after "a", replaces the session id "a" that the first one assigned. -/
theorem C13_second_sendWelcome_reassigns :
    IqWampCallee.sessionId (IqWampCallee.sendWelcome World.initial 0 "a") 0 = "a" ∧
    IqWampCallee.sessionId
      (IqWampCallee.sendWelcome (IqWampCallee.sendWelcome World.initial 0 "a") 0 "b") 0 = "b" ∧
    IqWampCallee.sessionId
      (IqWampCallee.sendWelcome (IqWampCallee.sendWelcome World.initial 0 "a") 0 "b") 0
      ≠ IqWampCallee.sessionId (IqWampCallee.sendWelcome World.initial 0 "a") 0 := by
  refine ⟨?_, ?_, ?_⟩ <;>
    simp [IqWampCallee.sessionId, IqWampCallee.sendWelcome, IqWampCallee.createSessionId,
      IqWampCallee.send]

/-- C13, amended: `sendWelcome` assigns the generated string as the session id and sends the
one frame `[WELCOME, sessionId, details]` whose element 1 is the value `sessionId()`
returns; after that, `sessionId()` returns the same value after every sequence of
operations (frames received by any session, `sendAbort`, `setRealm`, `publishEvent`,
`call`, the CALL handler, `sendWelcome` on other sessions) that holds no further
`sendWelcome` on this session. -/
theorem C13_session_id_kept_until_next_sendWelcome (fromJson : String → Option QJsonValue)
    (w : World) (self : Nat) (uuid : String) :
    IqWampCallee.sessionId (IqWampCallee.sendWelcome w self uuid) self = uuid ∧
    (IqWampCallee.sendWelcome w self uuid).sent = w.sent ++ [(self, QJsonValue.array
      [QJsonValue.ofInt MessageTypes.Welcome,
        QJsonValue.string (IqWampCallee.sessionId (IqWampCallee.sendWelcome w self uuid) self),
        QJsonValue.object [("roles", QJsonValue.object [])]])] ∧
    ∀ (ops : List Operation) (w' : World),
      (∀ op ∈ ops, op.isSendWelcome = true → op.target ≠ self) →
      Operation.runAll fromJson (IqWampCallee.sendWelcome w self uuid) ops = some w' →
      IqWampCallee.sessionId w' self = uuid := by
  have h0 : IqWampCallee.sessionId (IqWampCallee.sendWelcome w self uuid) self = uuid := by
    simp [IqWampCallee.sessionId, IqWampCallee.sendWelcome, IqWampCallee.createSessionId,
      IqWampCallee.send]
  refine ⟨h0, ?_, ?_⟩
  · simp [IqWampCallee.sessionId, IqWampCallee.sendWelcome, IqWampCallee.createSessionId,
      IqWampCallee.send]
  · intro ops w' hops hrun
    rw [Operation.runAll_sessionId fromJson self ops _ w' hops hrun, h0]

/-- C13, amended, at session 0 welcomed with "a", followed by `setRealm` on session 0,
`sendWelcome` on session 1 and `sendAbort` on session 0. -/
theorem C13_session_id_kept_until_next_sendWelcome_witness :
    IqWampCallee.sessionId
      (IqWampCallee.sendAbort
        (IqWampCallee.sendWelcome
          (IqWampCallee.setRealm (IqWampCallee.sendWelcome World.initial 0 "a") 0) 1 "b")
        0 "bye" []) 0 = "a" :=
  (C13_session_id_kept_until_next_sendWelcome (fun _ => none) World.initial 0 "a").2.2
    [Operation.setRealm 0, Operation.sendWelcome 1 "b", Operation.sendAbort 0 "bye" []] _
    (by
      intro op hop
      simp only [List.mem_cons, List.mem_singleton, List.not_mem_nil, or_false] at hop
      rcases hop with rfl | rfl | rfl <;> simp [Operation.isSendWelcome, Operation.target])
    rfl

/-- C14: `sendError` changes the world only by the one frame it sends, the 5-element array
`[ERROR, requestType, request, details, error]` in that order, whatever JSON value the
request id is. And among the frames that the REGISTER, UNREGISTER, UNSUBSCRIBE, PUBLISH
and CALL handlers send for a frame carrying their type code, every ERROR frame is
addressed to the requester and is `[ERROR, that type code, element 1 of the frame, {},
uri]`. -/
theorem C14_error_replies_correlated (w : World) (self : Nat) :
    (∀ (t : MessageTypes) (r : QJsonValue) (e : Errors) (d : QJsonObject),
      IqWampCallee.sendError w self t r e d
        = { w with sent := w.sent ++ [(self, QJsonValue.array
            [QJsonValue.ofInt MessageTypes.Error, QJsonValue.ofInt t, r, QJsonValue.object d,
              QJsonValue.string e.uri])] }) ∧
    (∀ (jsonMessage : QJsonArray) (w' : World),
      (QJsonArray.atIndex jsonMessage 0).toInt = MessageTypes.Register →
      IqWampCallee.processRegister w self jsonMessage = some w' →
      ∃ frames, w'.sent = w.sent ++ frames ∧
        ErrorsCorrelated self MessageTypes.Register (QJsonArray.atIndex jsonMessage 1) frames) ∧
    (∀ (jsonMessage : QJsonArray) (w' : World),
      (QJsonArray.atIndex jsonMessage 0).toInt = MessageTypes.UnRegister →
      IqWampCallee.processUnRegister w self jsonMessage = some w' →
      ∃ frames, w'.sent = w.sent ++ frames ∧
        ErrorsCorrelated self MessageTypes.UnRegister (QJsonArray.atIndex jsonMessage 1)
          frames) ∧
    (∀ (jsonMessage : QJsonArray) (w' : World),
      (QJsonArray.atIndex jsonMessage 0).toInt = MessageTypes.UnSubscribe →
      IqWampCallee.processUnSubscribe w self jsonMessage = some w' →
      ∃ frames, w'.sent = w.sent ++ frames ∧
        ErrorsCorrelated self MessageTypes.UnSubscribe (QJsonArray.atIndex jsonMessage 1)
          frames) ∧
    (∀ (jsonMessage : QJsonArray) (w' : World),
      (QJsonArray.atIndex jsonMessage 0).toInt = MessageTypes.Publish →
      IqWampCallee.processPublish w self jsonMessage = some w' →
      ∃ frames, w'.sent = w.sent ++ frames ∧
        ErrorsCorrelated self MessageTypes.Publish (QJsonArray.atIndex jsonMessage 1) frames) ∧
    (∀ (jsonMessage : QJsonArray) (w' : World),
      (QJsonArray.atIndex jsonMessage 0).toInt = MessageTypes.Call →
      IqWampCallee.processCall w self jsonMessage = some w' →
      ∃ frames, w'.sent = w.sent ++ frames ∧
        ErrorsCorrelated self MessageTypes.Call (QJsonArray.atIndex jsonMessage 1) frames) := by
  refine ⟨fun _ _ _ _ => rfl, ?_, ?_, ?_, ?_, ?_⟩
  · intro jsonMessage w' hcode h
    rw [← hcode]
    exact IqWampCallee.processRegister_errors w w' self jsonMessage h
  · intro jsonMessage w' hcode h
    rw [← hcode]
    exact IqWampCallee.processUnRegister_errors w w' self jsonMessage h
  · intro jsonMessage w' hcode h
    rw [← hcode]
    exact IqWampCallee.processUnSubscribe_errors w w' self jsonMessage h
  · intro jsonMessage w' _ h
    exact IqWampCallee.processPublish_errors w w' self jsonMessage h
  · intro jsonMessage w' _ h
    exact IqWampCallee.processCall_errors w w' self jsonMessage h

/-- C14 at the frame `[64, 7, {}, "com.example.add"]` handled for session 0 when session 1
holds the procedure: the frames sent by the handler are correlated to type code 64 and
request id 7. -/
theorem C14_error_replies_correlated_witness :
    ∃ frames,
      (IqWampCallee.sendError World.withRegistration 0 64 (QJsonValue.ofInt 7)
        Errors.ProcedureAlreadyExists []).sent = World.withRegistration.sent ++ frames ∧
      ErrorsCorrelated 0 MessageTypes.Register (QJsonValue.ofInt 7) frames :=
  (C14_error_replies_correlated World.withRegistration 0).2.1
    [QJsonValue.ofInt 64, QJsonValue.ofInt 7, QJsonValue.object [],
      QJsonValue.string "com.example.add"]
    (IqWampCallee.sendError World.withRegistration 0 64 (QJsonValue.ofInt 7)
      Errors.ProcedureAlreadyExists [])
    (by decide)
    ((IqWampCallee.processRegister_other World.withRegistration 0 (QJsonValue.ofInt 64)
      (QJsonValue.ofInt 7) (QJsonValue.object []) "com.example.add" []
      ⟨1, "com.example.add", 1⟩ rfl (by decide) (by decide)).trans
      (by simp [QJsonValue.ofInt, QJsonValue.toInt]))

/-- C15: `publishEvent` changes the world only by the one frame it sends to the session.
The frame is `[EVENT, subscriptionId, publicationId, {}]`, followed by the arguments
unless arguments and keyword arguments are both empty, followed by the keyword
arguments unless they are empty; so element 4 read as an array is the arguments and
element 5 read as an object is the keyword arguments in every case. -/
theorem C15_publishEvent_frame (w : World) (self : Nat) (subscriptionId publicationId : Int)
    (arguments : QJsonArray) (argumentsKw : QJsonObject) :
    IqWampCallee.publishEvent w self subscriptionId publicationId arguments argumentsKw
      = { w with sent := w.sent ++ [(self, QJsonValue.array
          (IqWampCallee.eventMessage subscriptionId publicationId arguments argumentsKw))] } ∧
    IqWampCallee.eventMessage subscriptionId publicationId arguments argumentsKw
      = [QJsonValue.ofInt MessageTypes.Event, QJsonValue.ofInt subscriptionId,
          QJsonValue.ofInt publicationId, QJsonValue.object []]
        ++ (if arguments.isEmpty && argumentsKw.isEmpty then [] else [QJsonValue.array arguments])
        ++ (if argumentsKw.isEmpty then [] else [QJsonValue.object argumentsKw]) ∧
    (QJsonArray.atIndex
      (IqWampCallee.eventMessage subscriptionId publicationId arguments argumentsKw) 4).toArray
      = arguments ∧
    (QJsonArray.atIndex
      (IqWampCallee.eventMessage subscriptionId publicationId arguments argumentsKw) 5).toObject
      = argumentsKw := by
  refine ⟨rfl, ?_, ?_, ?_⟩
  · cases arguments <;> cases argumentsKw <;> simp [IqWampCallee.eventMessage]
  · cases arguments <;> cases argumentsKw <;>
      simp [IqWampCallee.eventMessage, QJsonArray.atIndex, QJsonValue.toArray]
  · cases arguments <;> cases argumentsKw <;>
      simp [IqWampCallee.eventMessage, QJsonArray.atIndex, QJsonValue.toObject]

/-- C16: a frame whose element 3 is not a JSON string, which includes a frame of length 2 or 3
where it is absent. Each of the REGISTER, SUBSCRIBE, PUBLISH and CALL handlers returns
the world as it was, and so does the dispatcher when the frame carries one of the four
type codes: nothing is sent, and the registries and pending-call tables are unchanged.
The handlers complete on every array once the realm is set, and an element out of range
reads as `undefined`. -/
theorem C16_uri_field_checked (fromJson : String → Option QJsonValue) (w : World)
    (self : Nat) (message : String) (v : QJsonValue)
    (hparse : fromJson message = some v)
    (huri : (QJsonArray.atIndex v.toArray 3).isString = false) :
    IqWampCallee.processRegister w self v.toArray = some w ∧
    IqWampCallee.processSubscribe w self v.toArray = some w ∧
    IqWampCallee.processPublish w self v.toArray = some w ∧
    IqWampCallee.processCall w self v.toArray = some w ∧
    ((QJsonArray.atIndex v.toArray 0).toInt ∈
        [MessageTypes.Register, MessageTypes.Subscribe, MessageTypes.Publish, MessageTypes.Call] →
      IqWampCallee.processTextMessage fromJson w self message = some w) ∧
    ((w.callees self).m_realm = true → ∀ a : QJsonArray,
      (IqWampCallee.processRegister w self a).isSome = true ∧
      (IqWampCallee.processSubscribe w self a).isSome = true ∧
      (IqWampCallee.processPublish w self a).isSome = true ∧
      (IqWampCallee.processCall w self a).isSome = true) ∧
    (∀ (a : QJsonArray) (i : Nat), a.length ≤ i →
      QJsonArray.atIndex a i = QJsonValue.undefined ∧
      (QJsonArray.atIndex a i).isString = false) := by
  have hR := IqWampCallee.processRegister_not_string w self v.toArray huri
  have hS := IqWampCallee.processSubscribe_not_string w self v.toArray huri
  have hP := IqWampCallee.processPublish_not_string w self v.toArray huri
  refine ⟨hR, hS, hP, IqWampCallee.processCall_not_string w self v.toArray huri, ?_, ?_, ?_⟩
  · intro hcode
    simp only [List.mem_cons, List.mem_singleton, List.not_mem_nil, or_false] at hcode
    have hdrop := IqWampCallee.processTextMessage_uri_not_string fromJson w self message v
      hparse huri
    rcases hcode with hc | hc | hc | hc
    · exact hdrop.1 hc
    · exact hdrop.2.1 hc
    · exact hdrop.2.2 hc
    · apply IqWampCallee.processTextMessage_not_dispatched fromJson w self message v hparse
      rw [hc]
      decide
  · intro hrealm a
    exact ⟨IqWampCallee.processRegister_isSome w self a hrealm,
      IqWampCallee.processSubscribe_isSome w self a hrealm,
      IqWampCallee.processPublish_isSome w self a hrealm,
      IqWampCallee.processCall_isSome w self a hrealm⟩
  · intro a i hi
    have h : QJsonArray.atIndex a i = QJsonValue.undefined := by
      simp [QJsonArray.atIndex, List.getElem?_eq_none hi]
    exact ⟨h, by rw [h]; rfl⟩

/-- C16 at the frame `[64, 1, {}]` received by session 0, where the procedure is absent. -/
theorem C16_uri_field_checked_witness :
    IqWampCallee.processTextMessage
      (fun _ => some (QJsonValue.array [QJsonValue.ofInt 64, QJsonValue.ofInt 1,
        QJsonValue.object []]))
      World.initial 0 "[64, 1, \x7b\x7d]" = some World.initial :=
  (C16_uri_field_checked
    (fun _ => some (QJsonValue.array [QJsonValue.ofInt 64, QJsonValue.ofInt 1,
      QJsonValue.object []]))
    World.initial 0 "[64, 1, \x7b\x7d]" _ rfl rfl).2.2.2.2.1 (by decide)

/-- C17 as stated fails: the frame `[66, 1, 1.5]` received by session 0 of a router that has
just started is not dropped. The id is a number, so it passes the check, it is read as
0, and the frame is answered with `[ERROR, UNREGISTER, 1, {}, NoSuchRegistration]`. -/
theorem C17_non_whole_id_answered :
    ∃ w' : World,
      IqWampCallee.processTextMessage
        (fun _ => some (QJsonValue.array [QJsonValue.ofInt 66, QJsonValue.ofInt 1,
          QJsonValue.double ⟨3, 2, by decide, by decide⟩]))
        World.initial 0 "[66, 1, 1.5]" = some w' ∧
      w'.sent = [(0, QJsonValue.array [QJsonValue.ofInt 8, QJsonValue.ofInt 66,
        QJsonValue.ofInt 1, QJsonValue.object [], QJsonValue.string "NoSuchRegistration"])] ∧
      w'.sent ≠ World.initial.sent := by
  have h : IqWampCallee.processUnRegister World.initial 0
      [QJsonValue.ofInt MessageTypes.UnRegister, QJsonValue.ofInt 1,
        QJsonValue.double ⟨3, 2, by decide, by decide⟩]
      = some { World.initial with sent := [(0, QJsonValue.array [QJsonValue.ofInt 8,
          QJsonValue.ofInt 66, QJsonValue.ofInt 1, QJsonValue.object [],
          QJsonValue.string "NoSuchRegistration"])] } := by
    simp [IqWampCallee.processUnRegister, QJsonArray.atIndex, QJsonValue.isDouble,
      QJsonValue.toInt, QJsonValue.ofInt, IqWampRegistrations.hasRegistrationId,
      IqWampRegistrations.registrationById, World.initial, IqWampCallee.sendError,
      IqWampCallee.send, Errors.uri]
  refine ⟨_, (IqWampCallee.processTextMessage_unRegister _ World.initial 0 _
    (QJsonValue.ofInt 1) _ rfl).trans h, rfl, ?_⟩
  simp [World.initial]

/-- C17, amended: a frame whose element 2 is absent or is not a JSON number (a string, null,
an object, an array or a bool). The UNREGISTER and UNSUBSCRIBE handlers return the
world as it was, and so does the dispatcher when the frame carries one of the two type
codes: no frame at all is sent and the registries are unchanged. -/
theorem C17_non_number_id_dropped (fromJson : String → Option QJsonValue) (w : World)
    (self : Nat) (message : String) (v : QJsonValue)
    (hparse : fromJson message = some v)
    (hid : ∀ d : ℚ, QJsonArray.atIndex v.toArray 2 ≠ QJsonValue.double d) :
    IqWampCallee.processUnRegister w self v.toArray = some w ∧
    IqWampCallee.processUnSubscribe w self v.toArray = some w ∧
    ((QJsonArray.atIndex v.toArray 0).toInt = MessageTypes.UnRegister ∨
        (QJsonArray.atIndex v.toArray 0).toInt = MessageTypes.UnSubscribe →
      IqWampCallee.processTextMessage fromJson w self message = some w) := by
  have hkind : (QJsonArray.atIndex v.toArray 2).isDouble = false := by
    cases hx : QJsonArray.atIndex v.toArray 2 with
    | double d => exact absurd hx (hid d)
    | _ => rfl
  have hR := IqWampCallee.processUnRegister_not_double w self v.toArray hkind
  have hS := IqWampCallee.processUnSubscribe_not_double w self v.toArray hkind
  refine ⟨hR, hS, ?_⟩
  rintro (hc | hc)
  · rcases IqWampCallee.processTextMessage_code_unRegister fromJson w self message v hparse hc
      with h | h
    · exact h
    · exact h.trans hR
  · rcases IqWampCallee.processTextMessage_code_unSubscribe fromJson w self message v hparse hc
      with h | h
    · exact h
    · exact h.trans hS

/-- C17, amended, at the frame `[66, 1, "1"]` received by session 1, the holder of
registration 1. -/
theorem C17_non_number_id_dropped_witness :
    IqWampCallee.processTextMessage
      (fun _ => some (QJsonValue.array [QJsonValue.ofInt 66, QJsonValue.ofInt 1,
        QJsonValue.string "1"]))
      World.withRegistration 1 "[66, 1, \"1\"]" = some World.withRegistration :=
  (C17_non_number_id_dropped
    (fun _ => some (QJsonValue.array [QJsonValue.ofInt 66, QJsonValue.ofInt 1,
      QJsonValue.string "1"]))
    World.withRegistration 1 "[66, 1, \"1\"]" _ rfl
    (by intro d h; simp [QJsonArray.atIndex, QJsonValue.toArray] at h)).2.2
    (Or.inl (by decide))

/-- C18 as stated fails: the frame `[64, 1, 5, "com.example.add"]`, whose options field is
the number 5, received by session 0 of a router that has just started, is not dropped.
A Registration is created and the frame is answered with `[REGISTERED, 1, 1]`. -/
theorem C18_non_object_options_accepted :
    ∃ w' : World,
      IqWampCallee.processTextMessage
        (fun _ => some (QJsonValue.array [QJsonValue.ofInt 64, QJsonValue.ofInt 1,
          QJsonValue.ofInt 5, QJsonValue.string "com.example.add"]))
        World.initial 0 "[64, 1, 5, \"com.example.add\"]" = some w' ∧
      w'.realm.registrations.items = [⟨1, "com.example.add", 0⟩] ∧
      w'.realm.registrations.items ≠ World.initial.realm.registrations.items ∧
      w'.sent = [(0, QJsonValue.array [QJsonValue.ofInt 65, QJsonValue.ofInt 1,
        QJsonValue.ofInt 1])] := by
  refine ⟨_, (IqWampCallee.processTextMessage_register _ World.initial 0 _
    (QJsonValue.ofInt 1) _ rfl).trans
    (IqWampCallee.processRegister_free World.initial 0 _ _ _ "com.example.add" [] rfl rfl),
    ?_, ?_, ?_⟩ <;>
  simp [IqWampCallee.sendRegistered, IqWampCallee.send, World.initial,
    IqWampRegistrations.create]

/-- C18, amended: the REGISTER, SUBSCRIBE, PUBLISH and CALL handlers never inspect the
options field. Whatever JSON value stands at element 2, a frame is handled exactly as
the same frame with any other value there, so a frame whose options field is not an
object is handled like the same frame with an object as options. -/
theorem C18_options_not_inspected (w : World) (self : Nat)
    (code request options options' : QJsonValue) (rest : QJsonArray) :
    IqWampCallee.processRegister w self (code :: request :: options :: rest)
      = IqWampCallee.processRegister w self (code :: request :: options' :: rest) ∧
    IqWampCallee.processSubscribe w self (code :: request :: options :: rest)
      = IqWampCallee.processSubscribe w self (code :: request :: options' :: rest) ∧
    IqWampCallee.processPublish w self (code :: request :: options :: rest)
      = IqWampCallee.processPublish w self (code :: request :: options' :: rest) ∧
    IqWampCallee.processCall w self (code :: request :: options :: rest)
      = IqWampCallee.processCall w self (code :: request :: options' :: rest) := by
  refine ⟨?_, ?_, ?_, ?_⟩
  · simp only [IqWampCallee.processRegister, QJsonArray.atIndex, List.getD_cons_succ,
      List.getD_cons_zero]
  · simp only [IqWampCallee.processSubscribe, QJsonArray.atIndex, List.getD_cons_succ,
      List.getD_cons_zero]
  · simp only [IqWampCallee.processPublish, IqWampCallee.readArguments, QJsonArray.atIndex,
      List.getD_cons_succ, List.getD_cons_zero, List.length_cons]
  · simp only [IqWampCallee.processCall, IqWampCallee.readArguments, QJsonArray.atIndex,
      List.getD_cons_succ, List.getD_cons_zero, List.length_cons]

/-- C19 as stated fails: the frame `[64, 1, {}, "com.example.add"]` received by session 0
before any HELLO. While the realm of the session is unset the frame is not rejected:
it passes the check of the procedure field and the handler goes on to the registry of
the unset realm. Once `setRealm` has been called the same frame, still without any
HELLO received, creates a Registration and is answered with `[REGISTERED, 1, 1]`. -/
theorem C19_register_before_hello_not_rejected :
    IqWampCallee.processTextMessage
      (fun _ => some (QJsonValue.array [QJsonValue.ofInt 64, QJsonValue.ofInt 1,
        QJsonValue.object [], QJsonValue.string "com.example.add"]))
      World.noRealm 0 "[64, 1, \x7b\x7d, \"com.example.add\"]" = none ∧
    ∃ w' : World,
      IqWampCallee.processTextMessage
        (fun _ => some (QJsonValue.array [QJsonValue.ofInt 64, QJsonValue.ofInt 1,
          QJsonValue.object [], QJsonValue.string "com.example.add"]))
        (IqWampCallee.setRealm World.noRealm 0) 0
        "[64, 1, \x7b\x7d, \"com.example.add\"]" = some w' ∧
      w'.helloSignals = [] ∧
      w'.realm.registrations.items = [⟨1, "com.example.add", 0⟩] ∧
      w'.sent = [(0, QJsonValue.array [QJsonValue.ofInt 65, QJsonValue.ofInt 1,
        QJsonValue.ofInt 1])] := by
  constructor
  · rw [IqWampCallee.processTextMessage_register _ World.noRealm 0 _ (QJsonValue.ofInt 1) _ rfl]
    simp [IqWampCallee.processRegister, QJsonArray.atIndex, QJsonValue.isString, World.noRealm]
  · refine ⟨_, (IqWampCallee.processTextMessage_register _ _ 0 _ (QJsonValue.ofInt 1) _ rfl).trans
      (IqWampCallee.processRegister_free (IqWampCallee.setRealm World.noRealm 0) 0 _ _ _
        "com.example.add" [] (by simp [IqWampCallee.setRealm]) rfl), ?_, ?_, ?_⟩ <;>
    simp [IqWampCallee.sendRegistered, IqWampCallee.send, IqWampCallee.setRealm,
      World.noRealm, IqWampRegistrations.create]

/-- C19, amended: the session keeps no record of HELLO. At a session whose realm is unset, a
frame of another type is dropped, the world staying as it was, when its procedure or
topic field (REGISTER, SUBSCRIBE, PUBLISH) is not a string or its id field (UNREGISTER,
UNSUBSCRIBE) is not a number; and whenever the handling of any frame completes there,
the realm, the frames sent and the sessions are as before, so no registry was changed
and no reply sent. A frame `[HELLO, x, ...]` raises `hello` with `x` when `x` is a JSON
string and is dropped without any effect otherwise, at every session. -/
theorem C19_hello_and_unset_realm (fromJson : String → Option QJsonValue) (w : World)
    (self : Nat) (message : String) (v : QJsonValue)
    (hparse : fromJson message = some v) :
    ((w.callees self).m_realm = false →
      (QJsonArray.atIndex v.toArray 0).toInt ∈
        [MessageTypes.Register, MessageTypes.Subscribe, MessageTypes.Publish] →
      (QJsonArray.atIndex v.toArray 3).isString = false →
      IqWampCallee.processTextMessage fromJson w self message = some w) ∧
    ((w.callees self).m_realm = false →
      (QJsonArray.atIndex v.toArray 0).toInt ∈
        [MessageTypes.UnRegister, MessageTypes.UnSubscribe] →
      (QJsonArray.atIndex v.toArray 2).isDouble = false →
      IqWampCallee.processTextMessage fromJson w self message = some w) ∧
    ((w.callees self).m_realm = false → ∀ w' : World,
      IqWampCallee.processTextMessage fromJson w self message = some w' →
      w'.realm = w.realm ∧ w'.sent = w.sent ∧ w'.callees = w.callees) ∧
    (∀ (x : QJsonValue) (rest : QJsonArray),
      v = QJsonValue.array (QJsonValue.ofInt MessageTypes.Hello :: x :: rest) →
      (∀ s : String, x = QJsonValue.string s →
        IqWampCallee.processTextMessage fromJson w self message
          = some { w with helloSignals := w.helloSignals ++ [(self, s)] }) ∧
      (x.isString = false →
        IqWampCallee.processTextMessage fromJson w self message = some w)) := by
  refine ⟨?_, ?_, ?_, ?_⟩
  · intro _ hcode huri
    have h := (IqWampCallee.processTextMessage_uri_not_string fromJson w self message v hparse huri)
    simp only [List.mem_cons, List.mem_singleton, List.not_mem_nil, or_false] at hcode
    rcases hcode with hc | hc | hc
    · exact h.1 hc
    · exact h.2.1 hc
    · exact h.2.2 hc
  · intro _ hcode hid
    simp only [List.mem_cons, List.mem_singleton, List.not_mem_nil, or_false] at hcode
    rcases hcode with hc | hc
    · rcases IqWampCallee.processTextMessage_code_unRegister fromJson w self message v hparse hc
        with h | h
      · exact h
      · exact h.trans (IqWampCallee.processUnRegister_not_double w self v.toArray hid)
    · rcases IqWampCallee.processTextMessage_code_unSubscribe fromJson w self message v hparse hc
        with h | h
      · exact h
      · exact h.trans (IqWampCallee.processUnSubscribe_not_double w self v.toArray hid)
  · intro hrealm w' hrun
    rcases IqWampCallee.processTextMessage_cases fromJson w self message with
      h0 | ⟨s, h0⟩ | ⟨a, h0⟩
    · rw [h0] at hrun
      cases hrun
      exact ⟨rfl, rfl, rfl⟩
    · rw [h0] at hrun
      cases hrun
      exact ⟨rfl, rfl, rfl⟩
    · obtain ⟨hS, hUS, hP, hR, hUR⟩ := IqWampCallee.handlers_noRealm w self a hrealm
      have hdrop : IqWampCallee.processTextMessage fromJson w self message = some w ∨
          IqWampCallee.processTextMessage fromJson w self message = none := by
        rcases h0 with h0 | h0 | h0 | h0 | h0 <;> rw [h0]
        · exact hS
        · exact hUS
        · exact hP
        · exact hR
        · exact hUR
      rcases hdrop with h | h <;> rw [h] at hrun <;> cases hrun
      exact ⟨rfl, rfl, rfl⟩
  · intro x rest hv
    subst hv
    constructor
    · intro s hs
      subst hs
      simp [IqWampCallee.processTextMessage, hparse, QJsonValue.isArray, QJsonValue.toArray,
        QJsonArray.atIndex, QJsonValue.ofInt, QJsonValue.toInt, QJsonValue.isDouble,
        QJsonValue.isString, QJsonValue.toString]
    · intro hx
      simp [IqWampCallee.processTextMessage, hparse, QJsonValue.isArray, QJsonValue.toArray,
        QJsonArray.atIndex, QJsonValue.ofInt, QJsonValue.toInt, QJsonValue.isDouble, hx]

/-- C19, amended, at session 0 whose realm is unset: the frame `[1, "realm1"]` (HELLO) raises
`hello` with `realm1`, and the frame `[64, 1, {}]` (REGISTER without procedure) is
dropped. -/
theorem C19_hello_and_unset_realm_witness :
    IqWampCallee.processTextMessage
      (fun _ => some (QJsonValue.array [QJsonValue.ofInt 1, QJsonValue.string "realm1"]))
      World.noRealm 0 "[1, \"realm1\"]"
      = some { World.noRealm with helloSignals := [(0, "realm1")] } ∧
    IqWampCallee.processTextMessage
      (fun _ => some (QJsonValue.array [QJsonValue.ofInt 64, QJsonValue.ofInt 1,
        QJsonValue.object []]))
      World.noRealm 0 "[64, 1, \x7b\x7d]" = some World.noRealm :=
  ⟨((C19_hello_and_unset_realm
      (fun _ => some (QJsonValue.array [QJsonValue.ofInt 1, QJsonValue.string "realm1"]))
      World.noRealm 0 "[1, \"realm1\"]" _ rfl).2.2.2 (QJsonValue.string "realm1") [] rfl).1
      "realm1" rfl,
    (C19_hello_and_unset_realm
      (fun _ => some (QJsonValue.array [QJsonValue.ofInt 64, QJsonValue.ofInt 1,
        QJsonValue.object []]))
      World.noRealm 0 "[64, 1, \x7b\x7d]" _ rfl).1 rfl (by decide) rfl⟩

/-- C20 (the code departs from the claim): the frame
`[48, 2, {}, "com.example.add", [2, 3], {"k": 1}]` handled by `processCall` of session 0
when session 1 holds `com.example.add`. The dialer is invoked once, with the
Registration and the arguments `[2, 3]` of element 4, but with an empty object in place
of the keyword arguments `{"k": 1}` of element 5. One call future is stored, under the
invocation id 1 the dialer returned, with request id 2, and no frame is sent. -/
theorem C20_call_drops_argumentsKw :
    ∃ w' : World,
      IqWampCallee.processCall World.withRegistration 0
        [QJsonValue.ofInt 48, QJsonValue.ofInt 2, QJsonValue.object [],
          QJsonValue.string "com.example.add",
          QJsonValue.array [QJsonValue.ofInt 2, QJsonValue.ofInt 3],
          QJsonValue.object [("k", QJsonValue.ofInt 1)]] = some w' ∧
      w'.realm.dialer.calls.map (fun c => c.registration) = [⟨1, "com.example.add", 1⟩] ∧
      w'.realm.dialer.calls.map (fun c => c.arguments)
        = [[QJsonValue.ofInt 2, QJsonValue.ofInt 3]] ∧
      w'.realm.dialer.calls.map (fun c => c.argumentsKw) = [[]] ∧
      w'.realm.dialer.calls.map (fun c => c.argumentsKw) ≠ [[("k", QJsonValue.ofInt 1)]] ∧
      (w'.callees 0).m_callFutures.map (fun f => f.1) = [1] ∧
      (w'.callees 0).m_callFutures.map (fun f => f.2.callRequest) = [QJsonValue.ofInt 2] ∧
      w'.sent = [] := by
  refine ⟨_, IqWampCallee.processCall_found World.withRegistration 0 _ _ _ "com.example.add" _
    ([QJsonValue.ofInt 2, QJsonValue.ofInt 3], []) ⟨1, "com.example.add", 1⟩
    (by simp [IqWampCallee.readArguments, QJsonArray.atIndex, QJsonValue.isArray,
      QJsonValue.isObject, QJsonValue.toArray, QJsonValue.toObject]) rfl (by decide),
    ?_, ?_, ?_, ?_, ?_, ?_, ?_⟩
  all_goals simp [World.withRegistration]

end IqWamp
